import Mathlib

/-
Verification development for the dive-deco TypeScript library
(Buhlmann ZH-L16C decompression model with gradient factors).

Embedding conventions, used consistently below:
  * JavaScript numbers are modelled as real numbers (ℝ).  Division by zero
    yields 0 in Lean where JavaScript would produce NaN or Infinity; every
    place where this matters is flagged with a comment.
  * The classes Depth and Time are plain wrappers around a number in the
    source; they are modelled directly as ℝ (meters, respectively seconds).
  * Methods that can throw are modelled as Option-valued functions; none
    plays the role of a thrown exception.
  * Mutation of `this` is modelled by returning the updated model; methods
    that never assign to their receiver simply take the model as a value.
  * The unbounded while-loops of the source (deco planner, adaptive
    ceiling) are modelled with an explicit fuel parameter; running out of
    fuel returns none and models divergence.
-/

noncomputable section
open Classical

/-! ## Enumerations and plain data (src/types.ts) -/

inductive CeilingType where
  | Actual
  | Adaptive
deriving DecidableEq

inductive NDLType where
  | Actual
  | ByCeiling
deriving DecidableEq

inductive DecoStageType where
  | Ascent
  | DecoStop
  | GasSwitch
deriving DecidableEq

/-- The o2/n2/he triple returned by the pressure queries of Gas
(interface PartialPressures in src/types.ts). -/
structure GasPressures where
  o2 : ℝ
  n2 : ℝ
  he : ℝ

/-! ## Gas (src/gas.ts) -/

/-- Alveolar water vapor pressure, bar (constant in src/gas.ts). -/
def waterVaporPressure : ℝ := 0.0627

/-- A gas mix; the constructor stores o2 and he and derives n2 rounded to
four decimals (class Gas in src/gas.ts). -/
structure Gas where
  o2 : ℝ
  he : ℝ
  n2 : ℝ

/-- The Gas constructor body: n2 = round((1 - (o2 + he)) * 10000) / 10000.
The validation of the fractions (throw on o2, he outside [0,1] or
o2 + he > 1) is recorded separately as Gas.validFractions. -/
def Gas.make (o2Pp hePp : ℝ) : Gas :=
  ⟨o2Pp, hePp, ((round ((1 - (o2Pp + hePp)) * 10000) : ℤ) : ℝ) / 10000⟩

/-- The constructor's validation condition. -/
def Gas.validFractions (o2Pp hePp : ℝ) : Prop :=
  0 ≤ o2Pp ∧ o2Pp ≤ 1 ∧ 0 ≤ hePp ∧ hePp ≤ 1 ∧ o2Pp + hePp ≤ 1

def Gas.air : Gas := Gas.make 0.21 0

/-- partialPressures: component fractions times ambient pressure
surfacePressure/1000 + depth/10. -/
def Gas.ambientPp (g : Gas) (depth surfacePressure : ℝ) : GasPressures :=
  let gasPressure := surfacePressure / 1000 + depth / 10
  ⟨g.o2 * gasPressure, g.n2 * gasPressure, g.he * gasPressure⟩

/-- inspiredPartialPressures: as ambientPp but with the alveolar water
vapor pressure subtracted from the ambient pressure. -/
def Gas.inspiredPp (g : Gas) (depth surfacePressure : ℝ) : GasPressures :=
  let gasPressure := surfacePressure / 1000 + depth / 10 - waterVaporPressure
  ⟨g.o2 * gasPressure, g.n2 * gasPressure, g.he * gasPressure⟩

/-- maxOperatingDepth(ppO2Limit) = 10 * (ppO2Limit / fO2 - 1) meters. -/
def Gas.maxOperatingDepth (g : Gas) (ppO2Limit : ℝ) : ℝ :=
  10 * (ppO2Limit / g.o2 - 1)

/-! ## ZH-L16C table (src/zhlValues.ts) -/

structure ZHLParams where
  n2a : ℝ
  n2b : ℝ
  n2ht : ℝ
  hea : ℝ
  heb : ℝ
  heht : ℝ

def ZHL_16C_N2_16A_HE_VALUES : List ZHLParams :=
  [ ⟨1.2599, 0.505, 4.0, 1.7424, 0.4245, 1.51⟩,
    ⟨1.0, 0.6514, 8.0, 1.383, 0.5747, 3.02⟩,
    ⟨0.8618, 0.7222, 12.5, 1.1919, 0.6527, 4.72⟩,
    ⟨0.7562, 0.7825, 18.5, 1.0458, 0.7223, 6.99⟩,
    ⟨0.62, 0.8126, 27.0, 0.922, 0.7582, 10.21⟩,
    ⟨0.5043, 0.8434, 38.3, 0.8205, 0.7957, 14.48⟩,
    ⟨0.441, 0.8693, 54.3, 0.7305, 0.8279, 20.53⟩,
    ⟨0.4, 0.891, 77.0, 0.6502, 0.8553, 29.11⟩,
    ⟨0.375, 0.9092, 109.0, 0.595, 0.8757, 41.2⟩,
    ⟨0.35, 0.9222, 146.0, 0.5545, 0.8903, 55.19⟩,
    ⟨0.3295, 0.9319, 187.0, 0.5333, 0.8997, 70.69⟩,
    ⟨0.3065, 0.9403, 239.0, 0.5189, 0.9073, 90.34⟩,
    ⟨0.2835, 0.9477, 305.0, 0.5181, 0.9122, 115.29⟩,
    ⟨0.261, 0.9544, 390.0, 0.5176, 0.9171, 147.42⟩,
    ⟨0.248, 0.9602, 498.0, 0.5172, 0.9217, 188.24⟩,
    ⟨0.2327, 0.9653, 635.0, 0.5119, 0.9267, 240.03⟩ ]

/-! ## OxTox (src/oxTox.ts) -/

structure OxTox where
  cns : ℝ
  otu : ℝ

def OxTox.initial : OxTox := ⟨0, 0⟩

/-- getCnsRate: first matching row of the NOAA coefficient table wins
(both range bounds inclusive, rows checked in order); below 0.5 the rate
is 0; above 1.65 the last row's coefficients are used. -/
def getCnsRate (ppO2 : ℝ) : ℝ :=
  if 0.5 ≤ ppO2 ∧ ppO2 ≤ 0.6 then -1800 * ppO2 + 1800
  else if 0.6 ≤ ppO2 ∧ ppO2 ≤ 0.7 then -1500 * ppO2 + 1620
  else if 0.7 ≤ ppO2 ∧ ppO2 ≤ 0.8 then -1200 * ppO2 + 1410
  else if 0.8 ≤ ppO2 ∧ ppO2 ≤ 0.9 then -900 * ppO2 + 1170
  else if 0.9 ≤ ppO2 ∧ ppO2 ≤ 1.1 then -600 * ppO2 + 900
  else if 1.1 ≤ ppO2 ∧ ppO2 ≤ 1.5 then -300 * ppO2 + 570
  else if 1.5 ≤ ppO2 ∧ ppO2 ≤ 1.65 then -750 * ppO2 + 1245
  else if ppO2 < 0.5 then 0
  else if 1.65 < ppO2 then -750 * ppO2 + 1245
  else 0

/-- addExposure(ppO2, time): CNS grows by minutes/rate when the rate is
positive, OTU by ((ppO2 - 0.5)/0.5)^0.83 * minutes when ppO2 > 0.5.
The time argument is in seconds, as everywhere in this embedding. -/
def OxTox.addExposure (ox : OxTox) (ppO2 tSec : ℝ) : OxTox :=
  let cnsRate := getCnsRate ppO2
  let cns1 := if 0 < cnsRate then ox.cns + (tSec / 60) / cnsRate else ox.cns
  let otu1 :=
    if 0.5 < ppO2 then ox.otu + ((ppO2 - 0.5) / 0.5) ^ (0.83 : ℝ) * (tSec / 60)
    else ox.otu
  ⟨cns1, otu1⟩

/-! ## Compartment (src/compartment.ts) -/

structure Compartment where
  no : ℕ
  minTolerableAmbPressure : ℝ
  heIp : ℝ
  n2Ip : ℝ
  totalIp : ℝ
  mValueRaw : ℝ
  mValueCalc : ℝ
  params : ZHLParams

instance : Inhabited Compartment :=
  ⟨⟨0, 0, 0, 0, 0, 0, 0, ⟨0, 0, 0, 0, 0, 0⟩⟩⟩

/-- weightedZhlParams(hePp, n2Pp): (half time, a, b) weighted by the
tissue inert-gas proportions.  Note that the source applies the quotient
formula unconditionally; when hePp + n2Pp = 0 JavaScript produces NaN
(modelled here by Lean's division by zero, which yields 0). -/
def weightedZhlParams (p : ZHLParams) (hePp n2Pp : ℝ) : ℝ × ℝ × ℝ :=
  ( (p.heht * hePp + p.n2ht * n2Pp) / (hePp + n2Pp),
    (p.hea * hePp + p.n2a * n2Pp) / (hePp + n2Pp),
    (p.heb * hePp + p.n2b * n2Pp) / (hePp + n2Pp) )

/-- maxGfAdjustedZhlParams: a' = a * gf, b' = b / (gf - gf*b + b)
with gf = maxGf / 100. -/
def maxGfAdjustedZhlParams (trip : ℝ × ℝ × ℝ) (maxGf : ℝ) : ℝ × ℝ × ℝ :=
  let maxGfFraction := maxGf / 100
  ( trip.1,
    trip.2.1 * maxGfFraction,
    trip.2.2 / (maxGfFraction - maxGfFraction * trip.2.2 + trip.2.2) )

/-- Compartment.mValue(depth, surfacePressure, maxGf). -/
def Compartment.mValue (c : Compartment) (depth surfacePressure maxGf : ℝ) : ℝ :=
  let adj := maxGfAdjustedZhlParams (weightedZhlParams c.params c.heIp c.n2Ip) maxGf
  let pSurf := surfacePressure / 1000
  let pAmb := pSurf + depth / 10
  adj.2.1 + pAmb / adj.2.2

/-- minTolerableAmbPressureCalc(maxGf) = (totalIp - a') * b'. -/
def Compartment.minTolerableAmbPressureCalc (c : Compartment) (maxGf : ℝ) : ℝ :=
  let adj := maxGfAdjustedZhlParams (weightedZhlParams c.params c.heIp c.n2Ip) maxGf
  (c.totalIp - adj.2.1) * adj.2.2

/-- The Haldane loading factor 1 - 2^(-t_minutes / halfTime); the time
argument is in seconds (time.asMinutes() = seconds / 60). -/
def haldaneFactor (tSec halfTime : ℝ) : ℝ :=
  1 - (2 : ℝ) ^ (-(tSec / 60) / halfTime)

/-- Compartment.recalculate(record, maxGf, surfacePressure): update both
inert species by the Haldane equation from the inspired partial
pressures, set totalIp, then re-derive mValueRaw (at GF 100), mValueCalc
(at maxGf) and minTolerableAmbPressure (at maxGf) from the updated
pressures. -/
def Compartment.recalculate (c : Compartment) (depth tSec : ℝ) (gas : Gas)
    (maxGf surfacePressure : ℝ) : Compartment :=
  let insp := Gas.inspiredPp gas depth surfacePressure
  let heFinal := c.heIp + (insp.he - c.heIp) * haldaneFactor tSec c.params.heht
  let n2Final := c.n2Ip + (insp.n2 - c.n2Ip) * haldaneFactor tSec c.params.n2ht
  let c1 := { c with heIp := heFinal, n2Ip := n2Final, totalIp := heFinal + n2Final }
  { c1 with
    mValueRaw := Compartment.mValue c1 depth surfacePressure 100
    mValueCalc := Compartment.mValue c1 depth surfacePressure maxGf
    minTolerableAmbPressure := Compartment.minTolerableAmbPressureCalc c1 maxGf }

/-- Compartment.ceiling(): (minTolerableAmbPressure - pSurf) * 10 meters,
clamped below at 0. -/
def Compartment.ceiling (c : Compartment) (surfacePressure : ℝ) : ℝ :=
  let x := (c.minTolerableAmbPressure - surfacePressure / 1000) * 10
  if x < 0 then 0 else x

/-! ## Configuration (src/buhlmannConfig.ts) -/

structure BuhlmannConfig where
  gfLow : ℝ
  gfHigh : ℝ
  surfacePressure : ℝ
  decoAscentRate : ℝ
  ceilingType : CeilingType
  roundCeiling : Bool
  ndlType : NDLType

def BuhlmannConfig.default : BuhlmannConfig :=
  ⟨100, 100, 1013, 10, CeilingType.Actual, false, NDLType.Actual⟩

/-- validate(): the conjunction of the checks the source performs (each
check failing returns a ConfigValidationError; the ndlType field is
stored but not checked). -/
def BuhlmannConfig.validates (cfg : BuhlmannConfig) : Prop :=
  1 ≤ cfg.gfLow ∧ cfg.gfLow ≤ 100 ∧ 1 ≤ cfg.gfHigh ∧ cfg.gfHigh ≤ 100 ∧
  cfg.gfLow ≤ cfg.gfHigh ∧
  500 ≤ cfg.surfacePressure ∧ cfg.surfacePressure ≤ 1200 ∧
  0 < cfg.decoAscentRate ∧ cfg.decoAscentRate ≤ 30

/-! ## Model state (src/buhlmannModel.ts) -/

structure BuhlmannState where
  depth : ℝ
  time : ℝ
  gas : Gas
  gfLowDepth : Option ℝ
  oxTox : OxTox

structure BuhlmannModel where
  config : BuhlmannConfig
  compartments : List Compartment
  state : BuhlmannState
  sim : Bool

/-- The Compartment constructor: equilibrate with air at the surface
(n2Ip = 0.79 * (pSurf - waterVapor), heIp = 0), then derive mValueRaw at
GF 100, copy it to mValueCalc, and compute minTolerableAmbPressure at
the configured GF high. -/
def Compartment.init (no : ℕ) (p : ZHLParams) (cfg : BuhlmannConfig) : Compartment :=
  let ambientPressure := cfg.surfacePressure / 1000 + (0 : ℝ) / 10
  let inspiredPressure := ambientPressure - waterVaporPressure
  let n2Init := 0.79 * inspiredPressure
  let heInit := 0.0 * inspiredPressure
  let c0 : Compartment := ⟨no, 0, heInit, n2Init, heInit + n2Init, 0, 0, p⟩
  let mRaw := Compartment.mValue c0 0 cfg.surfacePressure 100
  { c0 with
    mValueRaw := mRaw
    mValueCalc := mRaw
    minTolerableAmbPressure := Compartment.minTolerableAmbPressureCalc c0 cfg.gfHigh }

/-- createCompartments: the sixteen table entries, numbered from 1. -/
def createCompartments (cfg : BuhlmannConfig) : List Compartment :=
  ZHL_16C_N2_16A_HE_VALUES.mapIdx (fun i p => Compartment.init (i + 1) p cfg)

/-- The BuhlmannModel constructor (configuration validation aside):
depth 0, time 0, gas air, no cached gfLowDepth, fresh OxTox, sim false,
equilibrated compartments. -/
def BuhlmannModel.make (cfg : BuhlmannConfig) : BuhlmannModel :=
  ⟨cfg, createCompartments cfg, ⟨0, 0, Gas.air, none, OxTox.initial⟩, false⟩

/-- The scan of leadingComp(): start from the first compartment and take
any later one whose minTolerableAmbPressure is strictly greater.  This
helper returns the index of that compartment. -/
def leadingIdxAux : List Compartment → ℕ → ℕ → ℝ → ℕ
  | [], _, best, _ => best
  | c :: rest, i, best, bestVal =>
    if bestVal < c.minTolerableAmbPressure then
      leadingIdxAux rest (i + 1) i c.minTolerableAmbPressure
    else
      leadingIdxAux rest (i + 1) best bestVal

def leadingCompIdx (m : BuhlmannModel) : ℕ :=
  match m.compartments with
  | [] => 0
  | c :: rest => leadingIdxAux rest 1 0 c.minTolerableAmbPressure

/-- leadingComp(): the compartment with the greatest
minTolerableAmbPressure (first one in case of ties). -/
def leadingComp (m : BuhlmannModel) : Compartment :=
  m.compartments.getD (leadingCompIdx m) default

/-! ## Ceiling, actual mode

A simulated model (sim = true) always takes the Actual branch of
ceiling(); that branch reads the leading compartment and applies the
optional rounding.  It is factored out here because the record path of a
simulated model (used inside every query fork) calls it. -/

/-- The value ceiling() returns on a model whose ceiling type resolves to
Actual: the leading compartment's ceiling, rounded up to a whole meter
when configured. -/
def ceilingSimMode (m : BuhlmannModel) : ℝ :=
  let c := Compartment.ceiling (leadingComp m) m.config.surfacePressure
  if m.config.roundCeiling = true then ((⌈c⌉ : ℤ) : ℝ) else c

/-- ceiling() as seen by the internals of a simulated model, as an
Option (it never throws). -/
def ceilingSimFn (m : BuhlmannModel) : Option ℝ :=
  some (ceilingSimMode m)

/-! ## Sloped gradient factor and the gfLowDepth cache
(BuhlmannModel.calcMaxSlopedGF) -/

/-- gfSlopePoint(gfLowDepth, depth) =
gfHigh - ((gfHigh - gfLow) / gfLowDepth) * depth. -/
def gfSlopePoint (cfg : BuhlmannConfig) (gfLowDepth depth : ℝ) : ℝ :=
  cfg.gfHigh - ((cfg.gfHigh - cfg.gfLow) / gfLowDepth) * depth

/-- The direct computation of gf_low_depth inside calcMaxSlopedGF: the
maximum over compartments of
max(0, 10 * ((totalIp - G*aW) / (1 - G + G/bW) - pSurf)), G = gfLow/100,
accumulated from 0. -/
def computeGfLowDepth (m : BuhlmannModel) : ℝ :=
  let surfacePressureBar := m.config.surfacePressure / 1000
  let gfLowFraction := m.config.gfLow / 100
  m.compartments.foldl
    (fun acc comp =>
      let w := weightedZhlParams comp.params comp.heIp comp.n2Ip
      let maxAmbP := (comp.totalIp - gfLowFraction * w.2.1) /
        (1 - gfLowFraction + gfLowFraction / w.2.2)
      max acc (max 0 (10 * (maxAmbP - surfacePressureBar))))
    0

/-- calcMaxSlopedGF(depth), parameterized by the function this.ceiling()
resolves to (the live model's ceiling inside record, the actual-mode
ceiling inside a simulated fork).  Returns the sloped gradient factor
together with the possibly-updated model (the only receiver write in the
method is the one that fills the gfLowDepth cache); none propagates a
throw from ceiling(). -/
def calcMaxSlopedGFCore (ceilFn : BuhlmannModel → Option ℝ)
    (m : BuhlmannModel) (depth : ℝ) : Option (ℝ × BuhlmannModel) :=
  match ceilFn m with
  | none => none
  | some c =>
    if ¬ 0 < c then some (m.config.gfHigh, m)
    else
      match m.state.gfLowDepth with
      | some gfLowDepth =>
        if gfLowDepth < depth then some (m.config.gfLow, m)
        else some (gfSlopePoint m.config gfLowDepth depth, m)
      | none =>
        let calculated := computeGfLowDepth m
        let m1 := { m with state := { m.state with gfLowDepth := some calculated } }
        if calculated < depth then some (m1.config.gfLow, m1)
        else some (gfSlopePoint m1.config calculated depth, m1)

/-! ## The record path (BuhlmannModel.record / recalculate), parameterized
by the resolution of this.ceiling() -/

/-- recalculateOxTox: feed the inspired O2 partial pressure and the
segment time to the OxTox accumulator. -/
def recalculateOxTox (m : BuhlmannModel) (depth tSec : ℝ) (gas : Gas) : BuhlmannModel :=
  let pp := Gas.inspiredPp gas depth m.config.surfacePressure
  { m with state := { m.state with oxTox := OxTox.addExposure m.state.oxTox pp.o2 tSec } }

/-- recalculateCompartments: first recalculate every compartment at GF
high; when the gradient factors differ, additionally recompute the
leading compartment at the sloped gradient factor with a zero-time
record. -/
def recalculateCompartmentsCore (ceilFn : BuhlmannModel → Option ℝ)
    (m : BuhlmannModel) (depth tSec : ℝ) (gas : Gas) : Option BuhlmannModel :=
  let comps1 := m.compartments.map
    (fun c => Compartment.recalculate c depth tSec gas m.config.gfHigh m.config.surfacePressure)
  let m1 := { m with compartments := comps1 }
  if m.config.gfHigh ≠ m.config.gfLow then
    match calcMaxSlopedGFCore ceilFn m1 depth with
    | none => none
    | some (maxGf, m2) =>
      let li := leadingCompIdx m2
      let lead := m2.compartments.getD li default
      let lead2 := Compartment.recalculate lead depth 0 gas maxGf m2.config.surfacePressure
      some { m2 with compartments := m2.compartments.set li lead2 }
  else some m1

/-- recalculate: compartments, then (unless simulated) oxygen toxicity. -/
def recalculateCore (ceilFn : BuhlmannModel → Option ℝ)
    (m : BuhlmannModel) (depth tSec : ℝ) (gas : Gas) : Option BuhlmannModel :=
  match recalculateCompartmentsCore ceilFn m depth tSec gas with
  | none => none
  | some m1 => some (if m1.sim = true then m1 else recalculateOxTox m1 depth tSec gas)

/-- record(depth, time, gas): validate the depth (0..200 m), then set
depth and gas, add the time, and recalculate. -/
def recordCore (ceilFn : BuhlmannModel → Option ℝ)
    (m : BuhlmannModel) (depth tSec : ℝ) (gas : Gas) : Option BuhlmannModel :=
  if depth < 0 ∨ 200 < depth then none
  else
    recalculateCore ceilFn
      { m with state := { m.state with depth := depth, gas := gas, time := m.state.time + tSec } }
      depth tSec gas

/-- The number of iterations of `while (i < travelTime.asSeconds())` with
an integer counter starting at 0. -/
def numSteps (tSec : ℝ) : ℕ :=
  if tSec ≤ 0 then 0 else (⌈tSec⌉ : ℤ).toNat

/-- One-second steps of recordTravel: per step the model time grows by
one second, the interpolated depth advances by distRate, and the model
recalculates at the new depth (the state's depth field is only written
after the loop). -/
def travelLoopCore (ceilFn : BuhlmannModel → Option ℝ) (gas : Gas) (distRate : ℝ) :
    ℕ → ℝ → BuhlmannModel → Option BuhlmannModel
  | 0, _, m => some m
  | n + 1, currentDepth, m =>
    let currentDepth1 := currentDepth + distRate
    let m1 := { m with state := { m.state with time := m.state.time + 1 } }
    match recalculateCore ceilFn m1 currentDepth1 1 gas with
    | none => none
    | some m2 => travelLoopCore ceilFn gas distRate n currentDepth1 m2

/-- recordTravel(targetDepth, time, gas): validate the target depth, set
the gas, run the one-second interpolation loop, then set the depth to the
target. -/
def recordTravelCore (ceilFn : BuhlmannModel → Option ℝ)
    (m : BuhlmannModel) (targetDepth tSec : ℝ) (gas : Gas) : Option BuhlmannModel :=
  if targetDepth < 0 ∨ 200 < targetDepth then none
  else
    let m1 := { m with state := { m.state with gas := gas } }
    let distance := targetDepth - m1.state.depth
    let distRate := distance / tSec
    match travelLoopCore ceilFn gas distRate (numSteps tSec) m1.state.depth m1 with
    | none => none
    | some m2 => some { m2 with state := { m2.state with depth := targetDepth } }

/-- recordTravelWithRate(targetDepth, rate, gas): derive the travel time
|targetDepth - depth| / rate minutes and delegate to recordTravel.  Note
that the source performs no validation of the rate. -/
def recordTravelWithRateCore (ceilFn : BuhlmannModel → Option ℝ)
    (m : BuhlmannModel) (targetDepth rate : ℝ) (gas : Gas) : Option BuhlmannModel :=
  recordTravelCore ceilFn m targetDepth (60 * (|targetDepth - m.state.depth| / rate)) gas

/-! ## Fork / clone and the adaptive ceiling -/

/-- fork(): a deep value copy of the model (state, compartments, oxTox)
with the sim flag set; the configuration is shared but immutable during
queries.  In this value embedding that is exactly the model with
sim := true. -/
def fork (m : BuhlmannModel) : BuhlmannModel :=
  { m with sim := true }

/-- clone(): same deep copy (with a cloned configuration) used by deco();
the sim flag is set by deco immediately after cloning. -/
def BuhlmannModel.clone (m : BuhlmannModel) : BuhlmannModel :=
  { m with sim := true }

/-- The record of a simulated model: its this.ceiling() always resolves
to actual mode. -/
def recordTravelWithRateS (m : BuhlmannModel) (targetDepth rate : ℝ) (gas : Gas) :
    Option BuhlmannModel :=
  recordTravelWithRateCore ceilingSimFn m targetDepth rate gas

/-- The adaptive-ceiling while-true loop, total form: stop when the fork
is at the surface or at/below the current calculated ceiling; otherwise
ascend the fork to that ceiling at the configured rate, recompute, and
continue while at most 50 passes have completed (the source increments
`iterations` after the pass and breaks once it exceeds 50). none models
a throw from the travel inside the fork. -/
def adaptiveLoop (m : BuhlmannModel) (c : ℝ) (simGas : Gas) (iters : ℕ) : Option ℝ :=
  if m.state.depth ≤ 0 ∨ m.state.depth ≤ c then some c
  else
    match recordTravelWithRateS m c m.config.decoAscentRate simGas with
    | none => none
    | some m2 =>
      let c2 := ceilingSimMode m2
      if h : 50 < iters + 1 then some c2
      else adaptiveLoop m2 c2 simGas (iters + 1)
  termination_by 51 - iters
  decreasing_by simp only [not_lt] at h; omega

/-- The same loop with the while-true modelled by explicit fuel: none
means the fuel ran out before the loop finished (this never happens for
fuel at least 51; see the claim C4 theorem). -/
def adaptiveLoopFuel (fuel : ℕ) (m : BuhlmannModel) (c : ℝ) (simGas : Gas)
    (iters : ℕ) : Option (Option ℝ) :=
  if m.state.depth ≤ 0 ∨ m.state.depth ≤ c then some (some c)
  else if fuel = 0 then none
  else
    match recordTravelWithRateS m c m.config.decoAscentRate simGas with
    | none => some none
    | some m2 =>
      let c2 := ceilingSimMode m2
      if 50 < iters + 1 then some (some c2)
      else adaptiveLoopFuel (fuel - 1) m2 c2 simGas (iters + 1)
  termination_by fuel
  decreasing_by omega

/-- The Adaptive branch of ceiling(): fork the model, seed the loop with
the fork's actual ceiling, and iterate. -/
def adaptiveCeilingCalc (m : BuhlmannModel) : Option ℝ :=
  let simM := fork m
  let simGas := simM.state.gas
  adaptiveLoop simM (ceilingSimMode simM) simGas 0

/-- ceiling(): simulated models always use actual mode; otherwise the
configured ceiling type decides; the result is optionally rounded up to
a whole meter. -/
def ceiling (m : BuhlmannModel) : Option ℝ :=
  let ct := if m.sim = true then CeilingType.Actual else m.config.ceilingType
  let co : Option ℝ :=
    match ct with
    | CeilingType.Actual =>
      some (Compartment.ceiling (leadingComp m) m.config.surfacePressure)
    | CeilingType.Adaptive => adaptiveCeilingCalc m
  co.map (fun c => if m.config.roundCeiling = true then ((⌈c⌉ : ℤ) : ℝ) else c)

/-- record on the live model: this.ceiling() is the full ceiling. -/
def record (m : BuhlmannModel) (depth tSec : ℝ) (gas : Gas) : Option BuhlmannModel :=
  recordCore ceiling m depth tSec gas

def recordTravel (m : BuhlmannModel) (targetDepth tSec : ℝ) (gas : Gas) :
    Option BuhlmannModel :=
  recordTravelCore ceiling m targetDepth tSec gas

def recordTravelWithRate (m : BuhlmannModel) (targetDepth rate : ℝ) (gas : Gas) :
    Option BuhlmannModel :=
  recordTravelWithRateCore ceiling m targetDepth rate gas

/-- The method name of the source for the sloped-GF computation on the
live model. -/
def calcMaxSlopedGF (m : BuhlmannModel) (depth : ℝ) : Option (ℝ × BuhlmannModel) :=
  calcMaxSlopedGFCore ceiling m depth

/-! ## Decompression planner (BuhlmannModel.deco and helpers) -/

structure DecoStage where
  stageType : DecoStageType
  startDepth : ℝ
  endDepth : ℝ
  duration : ℝ
  gas : Gas

structure DecoRuntime where
  decoStages : List DecoStage
  tts : ℝ
  ttsSurface : ℝ
  sim : Bool

/-- decoStopDepth(ceiling) = ceil(ceiling / 3) * 3 meters. -/
def decoStopDepth (c : ℝ) : ℝ :=
  ((⌈c / 3⌉ : ℤ) : ℝ) * 3

/-- Stable insertion of a gas into a list sorted ascending by fO2. -/
def insertGasByO2 (g : Gas) : List Gas → List Gas
  | [] => [g]
  | h :: t => if g.o2 < h.o2 then g :: h :: t else h :: insertGasByO2 g t

/-- The candidates.sort((a, b) => a.o2 - b.o2) of nextSwitchGas: a stable
ascending sort by fO2. -/
def sortGasByO2 : List Gas → List Gas
  | [] => []
  | h :: t => insertGasByO2 h (sortGasByO2 t)

/-- nextSwitchGas(currentDepth, currentGas, gasMixes): among the gases
whose O2 partial pressure at the current depth exceeds the current
gas's, the one with the smallest fO2. -/
def nextSwitchGas (cfg : BuhlmannConfig) (currentDepth : ℝ) (currentGas : Gas)
    (gasMixes : List Gas) : Option Gas :=
  let currentPPO2 := (Gas.ambientPp currentGas currentDepth cfg.surfacePressure).o2
  let candidates := gasMixes.filter
    (fun gas => decide (currentPPO2 < (Gas.ambientPp gas currentDepth cfg.surfacePressure).o2))
  if candidates = [] then none
  else (sortGasByO2 candidates).head?

/-- nextDecoAction(simModel, gasMixes): the decision procedure of the
planner (surface: done; no ceiling or missed stop: ascend; eligible
richer gas at or above its MOD: switch; at the stop depth: stop;
otherwise ascend or switch per the MOD/ceiling comparison). -/
def nextDecoAction (simM : BuhlmannModel) (gasMixes : List Gas) :
    Option DecoStageType × Option Gas :=
  let currentDepth := simM.state.depth
  let currentGas := simM.state.gas
  if currentDepth ≤ 0 then (none, none)
  else
    let c := ceilingSimMode simM
    if c ≤ 0 then (some DecoStageType.Ascent, none)
    else if currentDepth < decoStopDepth c then (some DecoStageType.Ascent, none)
    else
      match nextSwitchGas simM.config currentDepth currentGas gasMixes with
      | some nextGas =>
        if nextGas ≠ currentGas ∧ currentDepth ≤ Gas.maxOperatingDepth nextGas 1.6 then
          (some DecoStageType.GasSwitch, some nextGas)
        else if currentDepth = decoStopDepth c then (some DecoStageType.DecoStop, none)
        else if c ≤ Gas.maxOperatingDepth nextGas 1.6 then
          (some DecoStageType.GasSwitch, some nextGas)
        else (some DecoStageType.Ascent, none)
      | none =>
        if currentDepth = decoStopDepth c then (some DecoStageType.DecoStop, none)
        else (some DecoStageType.Ascent, none)

/-- registerDecoStage: coalesce with the previous stage when type, gas
and the depth seam agree; otherwise append. -/
def registerDecoStage (stages : List DecoStage) (stage : DecoStage) : List DecoStage :=
  match stages.getLast? with
  | some lastStage =>
    if lastStage.stageType = stage.stageType ∧ lastStage.endDepth = stage.startDepth ∧
        lastStage.gas = stage.gas then
      stages.dropLast ++
        [{ lastStage with duration := lastStage.duration + stage.duration,
                          endDepth := stage.endDepth }]
    else stages ++ [stage]
  | none => stages ++ [stage]

/-- The while-true loop of deco(), with fuel modelling the unbounded
iteration (none = divergence or a throw inside the loop).  Within deco
the model is always simulated, so simModel.ceiling() is the actual-mode
ceiling (lemma ceiling_of_sim below). -/
def decoLoop (fuel : ℕ) (simM : BuhlmannModel) (gasMixes : List Gas)
    (stages : List DecoStage) : Option (List DecoStage) :=
  if fuel = 0 then none
  else
    let preStageDepth := simM.state.depth
    let preStageTime := simM.state.time
    let preStageGas := simM.state.gas
    let c := ceilingSimMode simM
    let act := nextDecoAction simM gasMixes
    match act.1 with
    | none => some stages
    | some DecoStageType.Ascent =>
      match recordTravelWithRate simM (decoStopDepth c) simM.config.decoAscentRate preStageGas with
      | none => none
      | some m2 =>
        decoLoop (fuel - 1) m2 gasMixes
          (stages ++ [⟨DecoStageType.Ascent, preStageDepth, m2.state.depth,
            m2.state.time - preStageTime, m2.state.gas⟩])
    | some DecoStageType.DecoStop =>
      match record simM preStageDepth 1 preStageGas with
      | none => none
      | some m2 =>
        decoLoop (fuel - 1) m2 gasMixes
          (registerDecoStage stages ⟨DecoStageType.DecoStop, decoStopDepth c,
            decoStopDepth c, m2.state.time - preStageTime, m2.state.gas⟩)
    | some DecoStageType.GasSwitch =>
      match act.2 with
      | none => decoLoop (fuel - 1) simM gasMixes stages
      | some nextGas =>
        let switchMod := Gas.maxOperatingDepth nextGas 1.6
        let step1 : Option (BuhlmannModel × List DecoStage) :=
          if switchMod < preStageDepth then
            match recordTravelWithRate simM switchMod simM.config.decoAscentRate preStageGas with
            | none => none
            | some mA =>
              some (mA, stages ++ [⟨DecoStageType.Ascent, preStageDepth,
                mA.state.depth, mA.state.time - preStageTime, preStageGas⟩])
          else some (simM, stages)
        match step1 with
        | none => none
        | some (mA, stages1) =>
          match record mA mA.state.depth 0 nextGas with
          | none => none
          | some mS =>
            decoLoop (fuel - 1) mS gasMixes
              (registerDecoStage stages1 ⟨DecoStageType.GasSwitch, mS.state.depth,
                mS.state.depth, 0, nextGas⟩)
  termination_by fuel
  decreasing_by all_goals omega

/-- The fuel used to model deco's unbounded loop. -/
def decoFuel : ℕ := 1000000

/-- deco(gasMixes): validate (non-empty list containing the current
gas), run the stage loop on a simulated clone, and return the stages
with tts = ttsSurface = the sum of the stage durations. -/
def deco (m : BuhlmannModel) (gasMixes : List Gas) : Option DecoRuntime :=
  let simM := m.clone
  if gasMixes = [] then none
  else if ¬ simM.state.gas ∈ gasMixes then none
  else
    match decoLoop decoFuel simM gasMixes [] with
    | none => none
    | some stages =>
      let tts := stages.foldl (fun total stage => total + stage.duration) 0
      some ⟨stages, tts, tts, true⟩

/-! ## inDeco (DecoModel.inDeco) and ndl -/

/-- inDeco(): by the configured ceiling type — Actual: the ceiling is
strictly positive; Adaptive: deco on the current gas alone produces more
than one stage. -/
def inDeco (m : BuhlmannModel) : Option Bool :=
  match m.config.ceilingType with
  | CeilingType.Actual =>
    (ceiling m).map (fun c => if 0 < c then true else false)
  | CeilingType.Adaptive =>
    (deco m [m.state.gas]).map (fun runtime => if 1 < runtime.decoStages.length then true else false)

/-- The NDL cut-off, minutes. -/
def NDL_CUT_OFF_MINS : ℕ := 99

/-- The for-loop of ndl(): at index i record one minute at the live
model's depth and gas on the fork; if the fork is then in deco the NDL
is i minutes (60 * i seconds); when the loop completes, the 99-minute
cut-off stands. -/
def ndlLoop (depth : ℝ) (gas : Gas) (simM : BuhlmannModel) (i : ℕ) : Option ℝ :=
  if h : i < NDL_CUT_OFF_MINS then
    match record simM depth 60 gas with
    | none => none
    | some m2 =>
      match inDeco m2 with
      | none => none
      | some true => some (60 * i)
      | some false => ndlLoop depth gas m2 (i + 1)
  else some (60 * (NDL_CUT_OFF_MINS : ℝ))
  termination_by NDL_CUT_OFF_MINS - i
  decreasing_by simp only [NDL_CUT_OFF_MINS] at h ⊢; omega

/-- ndl(): zero when already in deco, otherwise the simulation loop on a
fork. -/
def ndl (m : BuhlmannModel) : Option ℝ :=
  match inDeco m with
  | none => none
  | some true => some 0
  | some false => ndlLoop m.state.depth m.state.gas (fork m) 0

/-! ## Specification-side definitions (used to state the claims; written
from the words of the spec, to be compared with the source-shaped
definitions above) -/

/-- The k-fold iterate of a one-minute record at fixed depth and gas,
starting from a given fork. -/
def simAfter (depth : ℝ) (gas : Gas) (m0 : BuhlmannModel) : ℕ → Option BuhlmannModel
  | 0 => some m0
  | k + 1 =>
    match simAfter depth gas m0 k with
    | none => none
    | some mm => record mm depth 60 gas

/-- Spec-shaped NDL search: the first i in 0..98 such that after i+1
one-minute records the fork is in deco gives NDL = i minutes; if no such
i exists the cut-off 99 minutes stands. -/
def ndlSpecSearch (depth : ℝ) (gas : Gas) (m0 : BuhlmannModel) (i : ℕ) : Option ℝ :=
  if h : i < NDL_CUT_OFF_MINS then
    match simAfter depth gas m0 (i + 1) with
    | none => none
    | some mm =>
      match inDeco mm with
      | none => none
      | some true => some (60 * i)
      | some false => ndlSpecSearch depth gas m0 (i + 1)
  else some (60 * (NDL_CUT_OFF_MINS : ℝ))
  termination_by NDL_CUT_OFF_MINS - i
  decreasing_by simp only [NDL_CUT_OFF_MINS] at h ⊢; omega

/-- ndl() as the spec words it (claim C5): 0 when currently in deco,
otherwise the first-hit search over the global iterates of the fork. -/
def ndlSpec (m : BuhlmannModel) : Option ℝ :=
  match inDeco m with
  | none => none
  | some true => some 0
  | some false => ndlSpecSearch m.state.depth m.state.gas (fork m) 0

/-! ## Query purity (claim C6)

The four query methods contain no assignment to their receiver — every
statement either reads `this` or mutates a fork/clone.  The translations
below thread the receiver explicitly: the returned model is the final
receiver state, which — since no statement writes it — is the input. -/

def ceilingQuery (m : BuhlmannModel) : Option ℝ × BuhlmannModel :=
  (ceiling m, m)

def ndlQuery (m : BuhlmannModel) : Option ℝ × BuhlmannModel :=
  (ndl m, m)

def decoQuery (m : BuhlmannModel) (gasMixes : List Gas) :
    Option DecoRuntime × BuhlmannModel :=
  (deco m gasMixes, m)

def inDecoQuery (m : BuhlmannModel) : Option Bool × BuhlmannModel :=
  (inDeco m, m)

/-! ## ndlType substitution (claim C10) -/

def setNdlType (m : BuhlmannModel) (t : NDLType) : BuhlmannModel :=
  { m with config := { m.config with ndlType := t } }

/-! ## Concrete inputs used by counterexamples and witnesses -/

/-- The first ZH-L16C table entry. -/
def zhlC1 : ZHLParams := ⟨1.2599, 0.505, 4.0, 1.7424, 0.4245, 1.51⟩

/-- A 30/70 configuration with actual ceiling (as produced by the
configuration builder for those arguments). -/
def cfg3070 : BuhlmannConfig := ⟨30, 70, 1013, 10, CeilingType.Actual, false, NDLType.Actual⟩

/-- A model state that is not in deco (single compartment with
min-tolerable ambient pressure below the surface pressure) carrying a
stale gfLowDepth cache of 5 m. -/
def modelNotInDeco : BuhlmannModel :=
  ⟨cfg3070, [⟨1, 0.9, 0, 0.7, 0.7, 1, 1, zhlC1⟩], ⟨0, 0, Gas.air, some 5, ⟨0, 0⟩⟩, false⟩

/-- A model state in deco (min-tolerable ambient pressure above the
surface pressure) carrying the same stale 5 m cache. -/
def modelInDecoCached : BuhlmannModel :=
  ⟨cfg3070, [⟨1, 1.2, 0, 0.7, 0.7, 1, 1, zhlC1⟩], ⟨1, 0, Gas.air, some 5, ⟨0, 0⟩⟩, false⟩

/-- The same in-deco state with an empty cache. -/
def modelInDecoFresh : BuhlmannModel :=
  ⟨cfg3070, [⟨1, 1.2, 0, 0.7, 0.7, 1, 1, zhlC1⟩], ⟨1, 0, Gas.air, none, ⟨0, 0⟩⟩, false⟩

/-- The default live model (GF 100/100, 1013 mbar, actual ceiling). -/
def defaultModel : BuhlmannModel := BuhlmannModel.make BuhlmannConfig.default

/-! # Theorems -/

/-! ## General lemmas about the embedding -/

/-- On a simulated model, ceiling() always resolves to the actual-mode
value: the Adaptive branch is unreachable. -/
theorem ceiling_of_sim (m : BuhlmannModel) (h : m.sim = true) :
    ceiling m = some (ceilingSimMode m) := by
  simp [ceiling, ceilingSimMode, h]

/-- Claim C3, counterexample.  The weighted-parameter computation at zero
tissue pressures does not fall back to the N2 coefficients: with the
first table entry it returns 0 for both the a and the b coefficient
(the 0/0 quotient; NaN in JavaScript, 0 under Lean's division), while
the N2 coefficients are 1.2599 and 0.505. -/
theorem weightedZhlParams_zero_counterexample :
    (weightedZhlParams zhlC1 0 0).2.1 ≠ zhlC1.n2a ∧
    (weightedZhlParams zhlC1 0 0).2.2 ≠ zhlC1.n2b := by
  constructor <;> · simp [weightedZhlParams, zhlC1]; norm_num

/-- Claim C3, amended.  For every compartment parameter set, the weighted
Buhlmann coefficients at P_He + P_N2 = 0 are computed by the same
quotient formula with a zero denominator — there is no fallback to the
N2 coefficients; under Lean's division-by-zero convention the triple is
(0, 0, 0) (in JavaScript the quotients are NaN). -/
theorem weightedZhlParams_zero_total (p : ZHLParams) :
    weightedZhlParams p 0 0 = (0, 0, 0) := by
  simp [weightedZhlParams]

/-- The not-in-deco example state has ceiling 0. -/
theorem ceiling_modelNotInDeco : ceiling modelNotInDeco = some 0 := by
  simp only [ceiling, modelNotInDeco, cfg3070, leadingComp, leadingCompIdx, leadingIdxAux,
    Compartment.ceiling]
  norm_num

/-- The in-deco example states have a strictly positive ceiling. -/
theorem ceiling_modelInDecoCached :
    ceiling modelInDecoCached = some 1.87 ∧ ceiling modelInDecoFresh = some 1.87 := by
  constructor <;>
  · simp only [ceiling, modelInDecoCached, modelInDecoFresh, cfg3070, leadingComp,
      leadingCompIdx, leadingIdxAux, Compartment.ceiling]
    norm_num

/-- Claim C2, counterexample.  A sloped-GF query on a model that is not
in deco (ceiling 0) leaves the stale 5 m gfLowDepth cache in place — the
cache is not invalidated — and a later, separate decompression
obligation reuses the stale value: with the cache present the sloped GF
at 1 m is 62 (slope anchored at the cached 5 m), while recomputing from
the same tissue state (empty cache) anchors at 0 m and yields GF low =
30. -/
theorem gfLowDepth_cache_counterexample :
    calcMaxSlopedGF modelNotInDeco 0 = some (70, modelNotInDeco) ∧
    modelNotInDeco.state.gfLowDepth = some 5 ∧
    ceiling modelNotInDeco = some 0 ∧
    calcMaxSlopedGF modelInDecoCached 1 = some (62, modelInDecoCached) ∧
    calcMaxSlopedGF modelInDecoFresh 1 =
      some (30, { modelInDecoFresh with
        state := { modelInDecoFresh.state with gfLowDepth := some 0 } }) ∧
    (62 : ℝ) ≠ 30 := by
  refine ⟨?_, rfl, ceiling_modelNotInDeco, ?_, ?_, by norm_num⟩
  · rw [calcMaxSlopedGF, calcMaxSlopedGFCore, ceiling_modelNotInDeco]
    norm_num [modelNotInDeco, cfg3070]
  · rw [calcMaxSlopedGF, calcMaxSlopedGFCore, ceiling_modelInDecoCached.1]
    norm_num [modelInDecoCached, cfg3070, gfSlopePoint]
  · rw [calcMaxSlopedGF, calcMaxSlopedGFCore, ceiling_modelInDecoCached.2]
    norm_num [modelInDecoFresh, cfg3070, computeGfLowDepth, weightedZhlParams, zhlC1,
      gfSlopePoint]

/-- Claim C2, amended.  The gfLowDepth cache is computed and stored the
first time a sloped GF is needed while in deco, and any cached value is
reused unchanged by every later query — including queries during a
later, separate decompression obligation; when the model is not in deco
the computation returns GF high and leaves the cache untouched (it is
never invalidated). -/
theorem gfLowDepth_cache_lifecycle (m : BuhlmannModel) (d c : ℝ)
    (h : ceiling m = some c) :
    (c ≤ 0 → calcMaxSlopedGF m d = some (m.config.gfHigh, m)) ∧
    (0 < c → ∀ D, m.state.gfLowDepth = some D →
      calcMaxSlopedGF m d =
        some (if D < d then m.config.gfLow else gfSlopePoint m.config D d, m)) ∧
    (0 < c → m.state.gfLowDepth = none →
      calcMaxSlopedGF m d =
        some (if computeGfLowDepth m < d then m.config.gfLow
              else gfSlopePoint m.config (computeGfLowDepth m) d,
          { m with state := { m.state with gfLowDepth := some (computeGfLowDepth m) } })) := by
  rw [calcMaxSlopedGF, calcMaxSlopedGFCore, h]
  dsimp only
  refine ⟨fun hc => ?_, fun hc D hD => ?_, fun hc hD => ?_⟩
  · rw [if_pos (not_lt.mpr hc)]
  · rw [if_neg (not_not.mpr hc), hD]
    dsimp only
    split <;> rfl
  · rw [if_neg (not_not.mpr hc), hD]
    dsimp only
    split <;> rfl

/-- Claim C2 witness: the amended lifecycle at the concrete not-in-deco
state. -/
theorem gfLowDepth_cache_lifecycle_witness :
    ceiling modelNotInDeco = some 0 ∧
    calcMaxSlopedGF modelNotInDeco 0 = some (modelNotInDeco.config.gfHigh, modelNotInDeco) :=
  ⟨ceiling_modelNotInDeco,
    (gfLowDepth_cache_lifecycle modelNotInDeco 0 0 ceiling_modelNotInDeco).1 (le_refl 0)⟩

/-- With a non-positive travel time the one-second loop of recordTravel
runs zero iterations: only the gas and the final depth are written. -/
theorem recordTravelCore_nonpos (f : BuhlmannModel → Option ℝ) (m : BuhlmannModel)
    (targetDepth tSec : ℝ) (g : Gas) (h1 : ¬(targetDepth < 0 ∨ 200 < targetDepth))
    (h2 : tSec ≤ 0) :
    recordTravelCore f m targetDepth tSec g =
      some { m with state := { m.state with depth := targetDepth, gas := g } } := by
  rw [recordTravelCore, if_neg h1]
  dsimp only
  rw [numSteps, if_pos h2]
  rfl

/-- Claim C8, counterexample.  recordTravelWithRate with rate -1 (≤ 0)
on the default model does not fail — it returns a model whose depth has
been set to the 10 m target (and whose gas has been set), so the claim
"rate ≤ 0 fails with an error and leaves the model unchanged" is false
on the code. -/
theorem recordTravelWithRate_rate_counterexample :
    recordTravelWithRate defaultModel 10 (-1) Gas.air =
      some { defaultModel with
        state := { defaultModel.state with depth := 10, gas := Gas.air } } ∧
    defaultModel.state.depth = 0 ∧ (10 : ℝ) ≠ 0 := by
  refine ⟨?_, rfl, by norm_num⟩
  rw [recordTravelWithRate, recordTravelWithRateCore]
  exact recordTravelCore_nonpos ceiling defaultModel 10 _ Gas.air (by norm_num)
    (by
      rw [show defaultModel.state.depth = 0 from rfl]
      norm_num)

/-- Claim C8, amended.  recordTravelWithRate performs no validation of
the rate: it always derives the travel time |targetDepth - depth| / rate
minutes and delegates to recordTravel.  For rate > 0 this is the stated
behaviour; for a negative rate the derived time is non-positive, the
travel loop performs no tissue update, and the call nevertheless
succeeds with the depth and gas updated (with rate = 0 and a non-zero
distance the JavaScript loop diverges on an infinite travel time). -/
theorem recordTravelWithRate_no_rate_validation :
    (∀ (m : BuhlmannModel) (targetDepth rate : ℝ) (g : Gas),
       recordTravelWithRate m targetDepth rate g =
         recordTravel m targetDepth (60 * (|targetDepth - m.state.depth| / rate)) g) ∧
    (∀ (m : BuhlmannModel) (targetDepth rate : ℝ) (g : Gas),
       rate < 0 → ¬(targetDepth < 0 ∨ 200 < targetDepth) →
       recordTravelWithRate m targetDepth rate g =
         some { m with state := { m.state with depth := targetDepth, gas := g } }) := by
  constructor
  · intro m targetDepth rate g
    rfl
  · intro m targetDepth rate g hr hv
    rw [recordTravelWithRate, recordTravelWithRateCore]
    refine recordTravelCore_nonpos ceiling m targetDepth _ g hv ?_
    have hq : |targetDepth - m.state.depth| / rate ≤ 0 :=
      div_nonpos_iff.mpr (Or.inl ⟨abs_nonneg _, hr.le⟩)
    nlinarith

/-- Claim C8 witness: the amended behaviour at the concrete call with
rate -1 on the default model. -/
theorem recordTravelWithRate_no_rate_validation_witness :
    recordTravelWithRate defaultModel 10 (-1) Gas.air =
      some { defaultModel with
        state := { defaultModel.state with depth := 10, gas := Gas.air } } :=
  recordTravelWithRate_no_rate_validation.2 defaultModel 10 (-1) Gas.air (by norm_num)
    (by norm_num)

/-- Claim C4.  The adaptive-ceiling computation always terminates: the
while-true loop, modelled with arbitrary fuel, stabilizes to the total
function adaptiveLoop whenever the fuel covers the iteration cap — the
loop stops when the fork is at the surface or at/below the current
calculated ceiling, and otherwise the iteration counter's hard cap of 50
stops it (the cap check follows the increment, so at most 51
ascend-and-recompute passes run; a new pass starts only while the
counter is at most 50).  Moreover the fork is simulated, and a simulated
model's ceiling() always takes the Actual branch, so forks never
re-enter adaptive mode; on a non-simulated model with Adaptive
configuration, ceiling() is exactly the loop's result with the optional
rounding applied. -/
theorem adaptive_ceiling_terminates :
    (∀ (fuel iters : ℕ) (m : BuhlmannModel) (c : ℝ) (g : Gas),
       iters ≤ 50 → 51 - iters ≤ fuel →
       adaptiveLoopFuel fuel m c g iters = some (adaptiveLoop m c g iters)) ∧
    (∀ m : BuhlmannModel, (fork m).sim = true) ∧
    (∀ m : BuhlmannModel, m.sim = true → ceiling m = some (ceilingSimMode m)) ∧
    (∀ m : BuhlmannModel, m.sim = false → m.config.ceilingType = CeilingType.Adaptive →
       ceiling m = (adaptiveCeilingCalc m).map
         (fun c => if m.config.roundCeiling = true then ((⌈c⌉ : ℤ) : ℝ) else c)) := by
  refine ⟨?_, fun m => rfl, fun m h => ceiling_of_sim m h, fun m h1 h2 => ?_⟩
  · intro fuel
    induction fuel with
    | zero =>
      intro iters m c g h1 h2
      omega
    | succ f ih =>
      intro iters m c g h1 h2
      rw [adaptiveLoopFuel, adaptiveLoop]
      by_cases hb : m.state.depth ≤ 0 ∨ m.state.depth ≤ c
      · rw [if_pos hb, if_pos hb]
      · rw [if_neg hb, if_neg hb, if_neg (by omega : ¬(f + 1 = 0))]
        cases hrec : recordTravelWithRateS m c m.config.decoAscentRate g with
        | none => rfl
        | some m2 =>
          dsimp only
          by_cases hc : 50 < iters + 1
          · rw [if_pos hc, dif_pos hc]
          · rw [if_neg hc, dif_neg hc]
            have := ih (iters + 1) m2 (ceilingSimMode m2) g (by omega) (by omega)
            simpa using this
  · simp [ceiling, h1, h2]

/-- Claim C4 witness: the fuel semantics agrees with the total loop for
fuel 51 at a concrete model, and the concrete fork's ceiling is the
actual-mode one. -/
theorem adaptive_ceiling_terminates_witness :
    (adaptiveLoopFuel 51 modelNotInDeco 0 Gas.air 0 =
      some (adaptiveLoop modelNotInDeco 0 Gas.air 0)) ∧
    ceiling (fork modelNotInDeco) = some (ceilingSimMode (fork modelNotInDeco)) :=
  ⟨adaptive_ceiling_terminates.1 51 0 modelNotInDeco 0 Gas.air (by decide) (by decide),
    adaptive_ceiling_terminates.2.2.1 (fork modelNotInDeco) rfl⟩

/-- The source's NDL loop, which threads the simulation model through
the iterations, computes the same answer as the spec-shaped first-hit
search over the global iterates of the fork. -/
theorem ndlLoop_eq_search (d : ℝ) (g : Gas) (m0 : BuhlmannModel) :
    ∀ (n i : ℕ) (mi : BuhlmannModel), n = NDL_CUT_OFF_MINS - i →
      simAfter d g m0 i = some mi →
      ndlLoop d g mi i = ndlSpecSearch d g m0 i := by
  intro n
  induction n with
  | zero =>
    intro i mi hn hs
    have hi : ¬ i < NDL_CUT_OFF_MINS := by
      simp only [NDL_CUT_OFF_MINS] at hn ⊢
      omega
    rw [ndlLoop, dif_neg hi, ndlSpecSearch, dif_neg hi]
  | succ k ih =>
    intro i mi hn hs
    have hi : i < NDL_CUT_OFF_MINS := by
      simp only [NDL_CUT_OFF_MINS] at hn ⊢
      omega
    rw [ndlLoop, dif_pos hi, ndlSpecSearch, dif_pos hi]
    have hnext : simAfter d g m0 (i + 1) = record mi d 60 g := by
      rw [simAfter, hs]
    rw [hnext]
    cases hrec : record mi d 60 g with
    | none => rfl
    | some m2 =>
      dsimp only
      cases hind : inDeco m2 with
      | none => rfl
      | some b =>
        cases b
        · exact ih (i + 1) m2
            (by simp only [NDL_CUT_OFF_MINS] at hn ⊢; omega)
            (by rw [hnext, hrec])
        · rfl

/-- Claim C5.  ndl() returns 0 whenever the model is currently in deco;
otherwise it forks the model and, for i = 0..98, records a one-minute
segment at the live depth and gas on the fork, returning i minutes
(60 * i seconds) at the first i after which the fork is in deco, and
the 99-minute cut-off when the loop completes without the fork entering
deco — exactly the spec-shaped definition ndlSpec. -/
theorem ndl_spec_correct (m : BuhlmannModel) : ndl m = ndlSpec m := by
  cases h : inDeco m with
  | none => simp [ndl, ndlSpec, h]
  | some b =>
    cases b
    · simp only [ndl, ndlSpec, h]
      exact ndlLoop_eq_search m.state.depth m.state.gas (fork m) NDL_CUT_OFF_MINS 0
        (fork m) rfl rfl
    · simp [ndl, ndlSpec, h]

/-- Claim C9.  inDeco() is decided by the configured ceiling type: under
Actual it is true exactly when ceiling() is strictly positive; under
Adaptive it is true exactly when deco on the current gas alone produces
more than one stage (and a throw/divergence of the underlying query
propagates). -/
theorem inDeco_by_ceiling_type (m : BuhlmannModel) :
    (m.config.ceilingType = CeilingType.Actual →
       ∀ c, ceiling m = some c → (inDeco m = some true ↔ 0 < c)) ∧
    (m.config.ceilingType = CeilingType.Adaptive →
       ∀ rt, deco m [m.state.gas] = some rt →
         (inDeco m = some true ↔ 1 < rt.decoStages.length)) ∧
    (m.config.ceilingType = CeilingType.Actual → ceiling m = none → inDeco m = none) ∧
    (m.config.ceilingType = CeilingType.Adaptive → deco m [m.state.gas] = none →
       inDeco m = none) := by
  refine ⟨fun hct c hc => ?_, fun hct rt hrt => ?_, fun hct hc => ?_, fun hct hrt => ?_⟩
  · rw [inDeco, hct, hc]
    by_cases h : 0 < c <;> simp [h]
  · rw [inDeco, hct, hrt]
    by_cases h : 1 < rt.decoStages.length <;> simp [h]
  · rw [inDeco, hct, hc]
    rfl
  · rw [inDeco, hct, hrt]
    rfl

/-- Claim C9 witness: the Actual case at a concrete model whose ceiling
is 0. -/
theorem inDeco_by_ceiling_type_witness :
    modelNotInDeco.config.ceilingType = CeilingType.Actual ∧
    (inDeco modelNotInDeco = some true ↔ (0 : ℝ) < 0) :=
  ⟨rfl, (inDeco_by_ceiling_type modelNotInDeco).1 rfl 0 ceiling_modelNotInDeco⟩

/-- The n2 tissue pressure after Compartment.recalculate, written out. -/
theorem recalculate_n2 (c : Compartment) (d t : ℝ) (g : Gas) (gf sp : ℝ) :
    (Compartment.recalculate c d t g gf sp).n2Ip =
      c.n2Ip + (g.n2 * (sp / 1000 + d / 10 - 0.0627) - c.n2Ip) *
        (1 - (2 : ℝ) ^ (-(t / 60) / c.params.n2ht)) :=
  rfl

/-- The helium tissue pressure after Compartment.recalculate. -/
theorem recalculate_he (c : Compartment) (d t : ℝ) (g : Gas) (gf sp : ℝ) :
    (Compartment.recalculate c d t g gf sp).heIp =
      c.heIp + (g.he * (sp / 1000 + d / 10 - 0.0627) - c.heIp) *
        (1 - (2 : ℝ) ^ (-(t / 60) / c.params.heht)) :=
  rfl

/-- Every recalculation sets totalIp to the sum of the two updated inert
pressures. -/
theorem recalculate_total (c : Compartment) (d t : ℝ) (g : Gas) (gf sp : ℝ) :
    (Compartment.recalculate c d t g gf sp).totalIp =
      (Compartment.recalculate c d t g gf sp).heIp +
        (Compartment.recalculate c d t g gf sp).n2Ip :=
  rfl

/-- The parameters are untouched by recalculation. -/
theorem recalculate_params (c : Compartment) (d t : ℝ) (g : Gas) (gf sp : ℝ) :
    (Compartment.recalculate c d t g gf sp).params = c.params :=
  rfl

/-- A zero-time recalculation (the second, sloped-GF pass of the record
path) leaves the tissue pressures unchanged: the Haldane factor at t = 0
is 1 - 2^0 = 0. -/
theorem recalculate_zero_time (c : Compartment) (d : ℝ) (g : Gas) (gf sp : ℝ) :
    (Compartment.recalculate c d 0 g gf sp).n2Ip = c.n2Ip ∧
    (Compartment.recalculate c d 0 g gf sp).heIp = c.heIp ∧
    (Compartment.recalculate c d 0 g gf sp).totalIp = c.heIp + c.n2Ip := by
  refine ⟨?_, ?_, ?_⟩
  · rw [recalculate_n2]
    norm_num
  · rw [recalculate_he]
    norm_num
  · rw [recalculate_total, recalculate_he, recalculate_n2]
    norm_num

/-- calcMaxSlopedGF only ever writes the gfLowDepth cache: every other
component of the model it returns is that of its argument. -/
theorem calcMaxSlopedGFCore_proj (f : BuhlmannModel → Option ℝ) (m : BuhlmannModel)
    (d gf : ℝ) (m2 : BuhlmannModel) (h : calcMaxSlopedGFCore f m d = some (gf, m2)) :
    m2.compartments = m.compartments ∧ m2.state.gas = m.state.gas ∧
    m2.state.depth = m.state.depth ∧ m2.state.time = m.state.time ∧
    m2.config = m.config ∧ m2.sim = m.sim ∧ m2.state.oxTox = m.state.oxTox := by
  rw [calcMaxSlopedGFCore] at h
  cases hc : f m with
  | none =>
    rw [hc] at h
    simp at h
  | some c =>
    rw [hc] at h
    dsimp only at h
    split at h
    · simp only [Option.some.injEq, Prod.mk.injEq] at h
      obtain ⟨-, hm⟩ := h
      subst hm
      exact ⟨rfl, rfl, rfl, rfl, rfl, rfl, rfl⟩
    · split at h <;> split at h <;>
      · simp only [Option.some.injEq, Prod.mk.injEq] at h
        obtain ⟨-, hm⟩ := h
        subst hm
        exact ⟨rfl, rfl, rfl, rfl, rfl, rfl, rfl⟩

/-- Claim C1.  For every successful record of a segment at depth d over
tSec seconds with gas g, every compartment's inert species are updated
by the Haldane equation P' = P + (P_insp - P) * (1 - 2^(-t_min/ht)) with
P_insp = f * (P_surf/1000 + d/10 - 0.0627), and P_total is set to the
sum of the two updated species (the second, zero-time sloped-GF pass on
the leading compartment does not change the pressures). -/
theorem record_haldane_update (m : BuhlmannModel) (d t : ℝ) (g : Gas)
    (m' : BuhlmannModel) (h : record m d t g = some m') :
    m'.compartments.length = m.compartments.length ∧
    ∀ i, i < m.compartments.length →
      (m'.compartments.getD i default).n2Ip =
        (m.compartments.getD i default).n2Ip +
          (g.n2 * (m.config.surfacePressure / 1000 + d / 10 - 0.0627) -
            (m.compartments.getD i default).n2Ip) *
          (1 - (2 : ℝ) ^ (-(t / 60) / (m.compartments.getD i default).params.n2ht)) ∧
      (m'.compartments.getD i default).heIp =
        (m.compartments.getD i default).heIp +
          (g.he * (m.config.surfacePressure / 1000 + d / 10 - 0.0627) -
            (m.compartments.getD i default).heIp) *
          (1 - (2 : ℝ) ^ (-(t / 60) / (m.compartments.getD i default).params.heht)) ∧
      (m'.compartments.getD i default).totalIp =
        (m'.compartments.getD i default).heIp + (m'.compartments.getD i default).n2Ip := by
  rw [record, recordCore] at h
  split at h
  · simp at h
  rw [recalculateCore] at h
  cases hA : recalculateCompartmentsCore ceiling
      { m with state := { m.state with depth := d, gas := g, time := m.state.time + t } }
      d t g with
  | none =>
    rw [hA] at h
    simp at h
  | some mA =>
    rw [hA] at h
    dsimp only at h
    simp only [Option.some.injEq] at h
    have hcomp : m'.compartments = mA.compartments := by
      rw [← h]
      split <;> rfl
    rw [recalculateCompartmentsCore] at hA
    dsimp only at hA
    split at hA
    · -- sloped-GF pass: the leading compartment is recalculated once
      -- more with zero time at the sloped factor
      cases hM : calcMaxSlopedGFCore ceiling
          { m with
            compartments := List.map
              (fun c => Compartment.recalculate c d t g m.config.gfHigh m.config.surfacePressure)
              m.compartments,
            state := { m.state with depth := d, gas := g, time := m.state.time + t } }
          d with
      | none =>
        rw [hM] at hA
        simp at hA
      | some p =>
        obtain ⟨maxGf, m2⟩ := p
        rw [hM] at hA
        dsimp only at hA
        simp only [Option.some.injEq] at hA
        have hp := calcMaxSlopedGFCore_proj _ _ _ _ _ hM
        have hm2comp : m2.compartments = List.map
            (fun c => Compartment.recalculate c d t g m.config.gfHigh m.config.surfacePressure)
            m.compartments := hp.1
        have hm2sp : m2.config.surfacePressure = m.config.surfacePressure := by
          rw [hp.2.2.2.2.1]
        have hAcomp : mA.compartments =
            m2.compartments.set (leadingCompIdx m2)
              (Compartment.recalculate (m2.compartments.getD (leadingCompIdx m2) default)
                d 0 g maxGf m2.config.surfacePressure) := by
          rw [← hA]
        have hlen : m'.compartments.length = m.compartments.length := by
          rw [hcomp, hAcomp, List.length_set, hm2comp, List.length_map]
        refine ⟨hlen, fun i hi => ?_⟩
        have hi2 : i < m2.compartments.length := by
          rw [hm2comp, List.length_map]
          exact hi
        have hiset : i < (m2.compartments.set (leadingCompIdx m2)
            (Compartment.recalculate (m2.compartments.getD (leadingCompIdx m2) default)
              d 0 g maxGf m2.config.surfacePressure)).length := by
          rw [List.length_set]
          exact hi2
        by_cases hli : leadingCompIdx m2 = i
        · -- the leading compartment: second pass with zero time
          subst hli
          have hgetset : m'.compartments.getD (leadingCompIdx m2) default =
              Compartment.recalculate (m2.compartments.getD (leadingCompIdx m2) default)
                d 0 g maxGf m2.config.surfacePressure := by
            rw [hcomp, hAcomp, List.getD_eq_getElem _ _ hiset, List.getElem_set_self]
          have hlead : m2.compartments.getD (leadingCompIdx m2) default =
              Compartment.recalculate (m.compartments.getD (leadingCompIdx m2) default) d t g
                m.config.gfHigh m.config.surfacePressure := by
            rw [hm2comp, List.getD_eq_getElem _ _ (by rw [List.length_map]; exact hi),
              List.getElem_map, List.getD_eq_getElem _ _ hi]
          obtain ⟨hz1, hz2, hz3⟩ := recalculate_zero_time
            (m2.compartments.getD (leadingCompIdx m2) default) d g maxGf
            m2.config.surfacePressure
          refine ⟨?_, ?_, ?_⟩
          · rw [hgetset, hz1, hlead, recalculate_n2]
          · rw [hgetset, hz2, hlead, recalculate_he]
          · rw [hgetset, hz3, hz1, hz2]
        · -- any other compartment: exactly the first-pass Haldane update
          have hgetset : m'.compartments.getD i default =
              Compartment.recalculate (m.compartments.getD i default) d t g
                m.config.gfHigh m.config.surfacePressure := by
            rw [hcomp, hAcomp, List.getD_eq_getElem _ _ hiset, List.getElem_set_ne hli,
              ← List.getD_eq_getElem m2.compartments default hi2, hm2comp,
              List.getD_eq_getElem _ _ (by rw [List.length_map]; exact hi),
              List.getElem_map, List.getD_eq_getElem _ _ hi]
          exact ⟨by rw [hgetset, recalculate_n2], by rw [hgetset, recalculate_he],
            by rw [hgetset, recalculate_total]⟩
    · -- equal gradient factors: single pass at GF high
      simp only [Option.some.injEq] at hA
      have hAcomp : mA.compartments = List.map
          (fun c => Compartment.recalculate c d t g m.config.gfHigh m.config.surfacePressure)
          m.compartments := by
        rw [← hA]
      have hlen : m'.compartments.length = m.compartments.length := by
        rw [hcomp, hAcomp, List.length_map]
      refine ⟨hlen, fun i hi => ?_⟩
      have hget : m'.compartments.getD i default =
          Compartment.recalculate (m.compartments.getD i default) d t g
            m.config.gfHigh m.config.surfacePressure := by
        rw [hcomp, hAcomp, List.getD_eq_getElem _ _ (by rw [List.length_map]; exact hi),
          List.getElem_map, List.getD_eq_getElem _ _ hi]
      exact ⟨by rw [hget, recalculate_n2], by rw [hget, recalculate_he],
        by rw [hget, recalculate_total]⟩

/-- A record with a valid depth on a model with equal gradient factors
always succeeds (the sloped-GF pass, the only fallible part, is
skipped). -/
theorem record_of_equal_gf (m : BuhlmannModel) (d t : ℝ) (g : Gas)
    (h1 : ¬(d < 0 ∨ 200 < d)) (h2 : m.config.gfHigh = m.config.gfLow) :
    ∃ m', record m d t g = some m' := by
  rw [record, recordCore, if_neg h1, recalculateCore, recalculateCompartmentsCore]
  dsimp only
  rw [if_neg (not_not_intro h2)]
  exact ⟨_, rfl⟩

/-- Claim C1 witness: a successful one-minute record at 10 m on the
default model, with the Haldane conclusion instantiated. -/
theorem record_haldane_update_witness :
    ∃ m', record defaultModel 10 60 Gas.air = some m' ∧
      (m'.compartments.length = defaultModel.compartments.length ∧
       ∀ i, i < defaultModel.compartments.length →
        (m'.compartments.getD i default).n2Ip =
          (defaultModel.compartments.getD i default).n2Ip +
            (Gas.air.n2 * (defaultModel.config.surfacePressure / 1000 + 10 / 10 - 0.0627) -
              (defaultModel.compartments.getD i default).n2Ip) *
            (1 - (2 : ℝ) ^ (-((60 : ℝ) / 60) /
              (defaultModel.compartments.getD i default).params.n2ht)) ∧
        (m'.compartments.getD i default).heIp =
          (defaultModel.compartments.getD i default).heIp +
            (Gas.air.he * (defaultModel.config.surfacePressure / 1000 + 10 / 10 - 0.0627) -
              (defaultModel.compartments.getD i default).heIp) *
            (1 - (2 : ℝ) ^ (-((60 : ℝ) / 60) /
              (defaultModel.compartments.getD i default).params.heht)) ∧
        (m'.compartments.getD i default).totalIp =
          (m'.compartments.getD i default).heIp + (m'.compartments.getD i default).n2Ip) := by
  obtain ⟨m', h⟩ := record_of_equal_gf defaultModel 10 60 Gas.air (by norm_num) rfl
  exact ⟨m', h, record_haldane_update defaultModel 10 60 Gas.air m' h⟩

/-- The compartment pass of record writes only the compartments and the
gfLowDepth cache. -/
theorem recalcCompartmentsCore_state (f : BuhlmannModel → Option ℝ) (m : BuhlmannModel)
    (d t : ℝ) (g : Gas) (mA : BuhlmannModel)
    (h : recalculateCompartmentsCore f m d t g = some mA) :
    mA.state.gas = m.state.gas ∧ mA.state.depth = m.state.depth ∧
    mA.state.time = m.state.time ∧ mA.sim = m.sim ∧ mA.config = m.config := by
  rw [recalculateCompartmentsCore] at h
  dsimp only at h
  split at h
  · split at h
    · simp at h
    · next maxGf m2 heq =>
      simp only [Option.some.injEq] at h
      subst h
      have hp := calcMaxSlopedGFCore_proj _ _ _ _ _ heq
      exact ⟨hp.2.1, hp.2.2.1, hp.2.2.2.1, hp.2.2.2.2.2.1, hp.2.2.2.2.1⟩
  · simp only [Option.some.injEq] at h
    subst h
    exact ⟨rfl, rfl, rfl, rfl, rfl⟩

/-- recalculate writes only compartments, the gfLowDepth cache and the
OxTox counters. -/
theorem recalculateCore_state (f : BuhlmannModel → Option ℝ) (m : BuhlmannModel)
    (d t : ℝ) (g : Gas) (mA : BuhlmannModel)
    (h : recalculateCore f m d t g = some mA) :
    mA.state.gas = m.state.gas ∧ mA.state.depth = m.state.depth ∧
    mA.state.time = m.state.time ∧ mA.sim = m.sim ∧ mA.config = m.config := by
  rw [recalculateCore] at h
  split at h
  · simp at h
  · next m1 heq =>
    simp only [Option.some.injEq] at h
    subst h
    have hs := recalcCompartmentsCore_state _ _ _ _ _ _ heq
    split <;> exact hs

/-- A successful record sets the gas and depth, adds the time, and keeps
the sim flag and the configuration. -/
theorem record_state (m : BuhlmannModel) (d t : ℝ) (g : Gas) (m' : BuhlmannModel)
    (h : record m d t g = some m') :
    m'.state.gas = g ∧ m'.state.depth = d ∧ m'.state.time = m.state.time + t ∧
    m'.sim = m.sim ∧ m'.config = m.config := by
  rw [record, recordCore] at h
  split at h
  · simp at h
  · exact recalculateCore_state _ _ _ _ _ _ h

/-- The one-second travel loop keeps the gas, the sim flag and the
configuration. -/
theorem travelLoopCore_state (f : BuhlmannModel → Option ℝ) (g : Gas) (dr : ℝ) :
    ∀ (n : ℕ) (cur : ℝ) (m m2 : BuhlmannModel),
      travelLoopCore f g dr n cur m = some m2 →
      m2.state.gas = m.state.gas ∧ m2.sim = m.sim ∧ m2.config = m.config := by
  intro n
  induction n with
  | zero =>
    intro cur m m2 h
    simp only [travelLoopCore, Option.some.injEq] at h
    subst h
    exact ⟨rfl, rfl, rfl⟩
  | succ k ih =>
    intro cur m m2 h
    rw [travelLoopCore] at h
    split at h
    · simp at h
    · next mP heq =>
      have h1 := recalculateCore_state _ _ _ _ _ _ heq
      have h2 := ih _ _ _ h
      exact ⟨h2.1.trans h1.1, h2.2.1.trans h1.2.2.2.1, h2.2.2.trans h1.2.2.2.2⟩

/-- A successful recordTravel sets the gas and the target depth and
keeps the sim flag and the configuration. -/
theorem recordTravelCore_state (f : BuhlmannModel → Option ℝ) (m : BuhlmannModel)
    (targetDepth tSec : ℝ) (g : Gas) (m' : BuhlmannModel)
    (h : recordTravelCore f m targetDepth tSec g = some m') :
    m'.state.gas = g ∧ m'.state.depth = targetDepth ∧ m'.sim = m.sim ∧
    m'.config = m.config := by
  rw [recordTravelCore] at h
  split at h
  · simp at h
  · dsimp only at h
    split at h
    · simp at h
    · next m2 heq =>
      simp only [Option.some.injEq] at h
      subst h
      have hl := travelLoopCore_state _ _ _ _ _ _ _ heq
      exact ⟨hl.1, rfl, hl.2.1, hl.2.2⟩

/-- The same for recordTravelWithRate on the live model. -/
theorem recordTravelWithRate_state (m : BuhlmannModel) (targetDepth rate : ℝ)
    (g : Gas) (m' : BuhlmannModel)
    (h : recordTravelWithRate m targetDepth rate g = some m') :
    m'.state.gas = g ∧ m'.state.depth = targetDepth ∧ m'.sim = m.sim ∧
    m'.config = m.config := by
  rw [recordTravelWithRate, recordTravelWithRateCore] at h
  exact recordTravelCore_state _ _ _ _ _ _ h

/-- Membership is invariant under the stable insertion. -/
theorem mem_insertGasByO2 (g a : Gas) : ∀ l : List Gas,
    (a ∈ insertGasByO2 g l ↔ a = g ∨ a ∈ l) := by
  intro l
  induction l with
  | nil => simp [insertGasByO2]
  | cons h t ih =>
    rw [insertGasByO2]
    split
    · simp [List.mem_cons]
    · simp only [List.mem_cons, ih]
      tauto

/-- Membership is invariant under the fO2 sort. -/
theorem mem_sortGasByO2 (a : Gas) : ∀ l : List Gas, a ∈ sortGasByO2 l ↔ a ∈ l := by
  intro l
  induction l with
  | nil => simp [sortGasByO2]
  | cons h t ih =>
    rw [sortGasByO2, mem_insertGasByO2]
    simp [ih]

/-- A switch candidate always comes from the supplied gas list. -/
theorem nextSwitchGas_mem (cfg : BuhlmannConfig) (d : ℝ) (g : Gas)
    (gasMixes : List Gas) (n : Gas) (h : nextSwitchGas cfg d g gasMixes = some n) :
    n ∈ gasMixes := by
  rw [nextSwitchGas] at h
  split at h
  · simp at h
  · have hmem : n ∈ sortGasByO2 (gasMixes.filter
        (fun gas => decide ((Gas.ambientPp g d cfg.surfacePressure).o2 <
          (Gas.ambientPp gas d cfg.surfacePressure).o2))) :=
      List.mem_of_mem_head? (by simp [h])
    rw [mem_sortGasByO2] at hmem
    exact List.mem_of_mem_filter hmem

/-- The gas attached to the action returned by nextDecoAction comes from
the supplied list. -/
theorem nextDecoAction_gas_mem (simM : BuhlmannModel) (gasMixes : List Gas) (n : Gas)
    (h : (nextDecoAction simM gasMixes).2 = some n) : n ∈ gasMixes := by
  rw [nextDecoAction] at h
  split at h
  · simp at h
  · dsimp only at h
    split at h
    · simp at h
    · split at h
      · simp at h
      · split at h
        · next hsg =>
          split at h
          · simp only [Prod.snd, Option.some.injEq] at h
            subst h
            exact nextSwitchGas_mem _ _ _ _ _ hsg
          · split at h
            · simp at h
            · split at h
              · simp only [Prod.snd, Option.some.injEq] at h
                subst h
                exact nextSwitchGas_mem _ _ _ _ _ hsg
              · simp at h
        · split at h <;> simp at h

/-- Coalescing preserves any property of the stage gases. -/
theorem registerDecoStage_closure (P : Gas → Prop) (stages : List DecoStage)
    (stage : DecoStage) (h1 : ∀ s ∈ stages, P s.gas) (h2 : P stage.gas) :
    ∀ s ∈ registerDecoStage stages stage, P s.gas := by
  intro s hs
  rw [registerDecoStage] at hs
  split at hs
  · next lastStage heq =>
    split at hs
    · rcases List.mem_append.mp hs with hd | hm
      · exact h1 s ((List.dropLast_sublist (l := stages)).subset hd)
      · rw [List.mem_singleton.mp hm]
        exact h1 lastStage (List.mem_of_mem_getLast? heq)
    · rcases List.mem_append.mp hs with hd | hm
      · exact h1 s hd
      · rw [List.mem_singleton.mp hm]
        exact h2
  · rcases List.mem_append.mp hs with hd | hm
    · exact h1 s hd
    · rw [List.mem_singleton.mp hm]
      exact h2

/-- The stage loop of deco only ever appends stages whose gas is the
simulation's current gas (itself drawn from the list) or a switch
candidate from the list. -/
theorem decoLoop_gas_closure (gasMixes : List Gas) :
    ∀ (fuel : ℕ) (simM : BuhlmannModel) (stages out : List DecoStage),
      simM.state.gas ∈ gasMixes → (∀ s ∈ stages, s.gas ∈ gasMixes) →
      decoLoop fuel simM gasMixes stages = some out →
      ∀ s ∈ out, s.gas ∈ gasMixes := by
  intro fuel
  induction fuel with
  | zero =>
    intro simM stages out hg hst h
    rw [decoLoop, if_pos rfl] at h
    simp at h
  | succ f ih =>
    intro simM stages out hg hst h
    rw [decoLoop, if_neg (Nat.succ_ne_zero f)] at h
    dsimp only at h
    split at h
    · -- terminate: the accumulated stages are returned
      simp only [Option.some.injEq] at h
      subst h
      exact hst
    · -- ascend
      split at h
      · simp at h
      · next m2 heq =>
        refine ih m2 _ out ?_ ?_ h
        · rw [(recordTravelWithRate_state _ _ _ _ _ heq).1]
          exact hg
        · intro s hs
          rcases List.mem_append.mp hs with hd | hm
          · exact hst s hd
          · rw [List.mem_singleton.mp hm]
            dsimp only
            rw [(recordTravelWithRate_state _ _ _ _ _ heq).1]
            exact hg
    · -- deco stop
      split at h
      · simp at h
      · next m2 heq =>
        refine ih m2 _ out ?_ ?_ h
        · rw [(record_state _ _ _ _ _ heq).1]
          exact hg
        · refine registerDecoStage_closure _ _ _ hst ?_
          dsimp only
          rw [(record_state _ _ _ _ _ heq).1]
          exact hg
    · -- gas switch
      next hact =>
      split at h
      · exact ih simM stages out hg hst h
      · next nextGas hng =>
        have hnmem : nextGas ∈ gasMixes := nextDecoAction_gas_mem _ _ _ hng
        split at h
        · -- the optional pre-ascent failed
          simp at h
        · next mA stages1 heqS1 =>
          split at h
          · simp at h
          · next mS heqS =>
            refine ih mS _ out ?_ ?_ h
            · rw [(record_state _ _ _ _ _ heqS).1]
              exact hnmem
            · have hstages1 : ∀ s ∈ stages1, s.gas ∈ gasMixes := by
                by_cases hmod : Gas.maxOperatingDepth nextGas 1.6 < simM.state.depth
                · rw [if_pos hmod] at heqS1
                  split at heqS1
                  · simp at heqS1
                  · simp only [Option.some.injEq, Prod.mk.injEq] at heqS1
                    obtain ⟨-, hS⟩ := heqS1
                    subst hS
                    intro s hs
                    rcases List.mem_append.mp hs with hd | hm
                    · exact hst s hd
                    · rw [List.mem_singleton.mp hm]
                      exact hg
                · rw [if_neg hmod] at heqS1
                  simp only [Option.some.injEq, Prod.mk.injEq] at heqS1
                  obtain ⟨-, hS⟩ := heqS1
                  subst hS
                  exact hst
              exact registerDecoStage_closure _ _ _ hstages1 hnmem

/-- Claim C7.  For every model and gas list accepted by deco (non-empty
and containing the current gas), every stage of the returned DecoRuntime
carries a gas that is a member of the input list: ascent and stop stages
use the simulation's current in-list gas, and switch stages use a
candidate drawn from the list. -/
theorem deco_gas_closure (m : BuhlmannModel) (gasMixes : List Gas) (rt : DecoRuntime)
    (h1 : gasMixes ≠ []) (h2 : m.state.gas ∈ gasMixes)
    (h : deco m gasMixes = some rt) :
    ∀ s ∈ rt.decoStages, s.gas ∈ gasMixes := by
  rw [deco, if_neg h1] at h
  rw [if_neg (show ¬(m.clone.state.gas ∉ gasMixes) from not_not_intro h2)] at h
  split at h
  · simp at h
  · next stages heq =>
    simp only [Option.some.injEq] at h
    subst h
    exact decoLoop_gas_closure gasMixes decoFuel m.clone [] stages h2 (by simp) heq

/-- At the surface the planner terminates immediately with no stages. -/
theorem deco_defaultModel_eval : deco defaultModel [Gas.air] = some ⟨[], 0, 0, true⟩ := by
  have hact : nextDecoAction defaultModel.clone [Gas.air] = (none, none) := by
    rw [nextDecoAction,
      if_pos (show defaultModel.clone.state.depth ≤ 0 from le_refl 0)]
  have hloop : decoLoop decoFuel defaultModel.clone [Gas.air] [] = some [] := by
    rw [decoLoop, if_neg (by norm_num [decoFuel])]
    dsimp only
    rw [hact]
  rw [deco]
  rw [if_neg (by simp : ¬([Gas.air] = ([] : List Gas)))]
  rw [if_neg (show ¬(defaultModel.clone.state.gas ∉ [Gas.air]) from
    not_not_intro (List.mem_singleton.mpr rfl))]
  rw [hloop]
  rfl

/-- Claim C7 witness: the gas-list closure at the concrete surface model
with the singleton list [air]. -/
theorem deco_gas_closure_witness :
    ([Gas.air] ≠ ([] : List Gas)) ∧ defaultModel.state.gas ∈ [Gas.air] ∧
    deco defaultModel [Gas.air] = some ⟨[], 0, 0, true⟩ ∧
    ∀ s ∈ (⟨[], 0, 0, true⟩ : DecoRuntime).decoStages, s.gas ∈ [Gas.air] := by
  refine ⟨by simp, List.mem_singleton.mpr rfl, deco_defaultModel_eval, ?_⟩
  exact deco_gas_closure defaultModel [Gas.air] ⟨[], 0, 0, true⟩ (by simp)
    (List.mem_singleton.mpr rfl) deco_defaultModel_eval

/-! ### ndlType is never read (claim C10)

The lemmas below push a substitution of the ndlType configuration field
through every operation; each unfolds to the observation that no
function reads the field. -/

theorem setNdl_state (m : BuhlmannModel) (t : NDLType) :
    (setNdlType m t).state = m.state := rfl

theorem setNdl_compartments (m : BuhlmannModel) (t : NDLType) :
    (setNdlType m t).compartments = m.compartments := rfl

theorem setNdl_sim (m : BuhlmannModel) (t : NDLType) :
    (setNdlType m t).sim = m.sim := rfl

theorem setNdl_gfLow (m : BuhlmannModel) (t : NDLType) :
    (setNdlType m t).config.gfLow = m.config.gfLow := rfl

theorem setNdl_gfHigh (m : BuhlmannModel) (t : NDLType) :
    (setNdlType m t).config.gfHigh = m.config.gfHigh := rfl

theorem setNdl_surfacePressure (m : BuhlmannModel) (t : NDLType) :
    (setNdlType m t).config.surfacePressure = m.config.surfacePressure := rfl

theorem setNdl_decoAscentRate (m : BuhlmannModel) (t : NDLType) :
    (setNdlType m t).config.decoAscentRate = m.config.decoAscentRate := rfl

theorem setNdl_ceilingType (m : BuhlmannModel) (t : NDLType) :
    (setNdlType m t).config.ceilingType = m.config.ceilingType := rfl

theorem setNdl_roundCeiling (m : BuhlmannModel) (t : NDLType) :
    (setNdlType m t).config.roundCeiling = m.config.roundCeiling := rfl

theorem setNdl_update_comps (m : BuhlmannModel) (t : NDLType) (X : List Compartment) :
    { setNdlType m t with compartments := X } =
      setNdlType { m with compartments := X } t := rfl

theorem setNdl_update_state (m : BuhlmannModel) (t : NDLType) (st : BuhlmannState) :
    { setNdlType m t with state := st } = setNdlType { m with state := st } t := rfl

theorem fork_ndl (m : BuhlmannModel) (t : NDLType) :
    fork (setNdlType m t) = setNdlType (fork m) t := rfl

theorem clone_ndl (m : BuhlmannModel) (t : NDLType) :
    (setNdlType m t).clone = setNdlType m.clone t := rfl

theorem leadingCompIdx_ndl (m : BuhlmannModel) (t : NDLType) :
    leadingCompIdx (setNdlType m t) = leadingCompIdx m := rfl

theorem leadingComp_ndl (m : BuhlmannModel) (t : NDLType) :
    leadingComp (setNdlType m t) = leadingComp m := rfl

theorem ceilingSimMode_ndl (m : BuhlmannModel) (t : NDLType) :
    ceilingSimMode (setNdlType m t) = ceilingSimMode m := rfl

theorem ceilingSimFn_ndl (m : BuhlmannModel) (t : NDLType) :
    ceilingSimFn (setNdlType m t) = ceilingSimFn m := rfl

theorem computeGfLowDepth_ndl (m : BuhlmannModel) (t : NDLType) :
    computeGfLowDepth (setNdlType m t) = computeGfLowDepth m := rfl

theorem recalculateOxTox_ndl (m : BuhlmannModel) (t : NDLType) (d ts : ℝ) (g : Gas) :
    recalculateOxTox (setNdlType m t) d ts g =
      setNdlType (recalculateOxTox m d ts g) t := rfl

theorem nextSwitchGas_ndl (m : BuhlmannModel) (t : NDLType) (d : ℝ) (g : Gas)
    (gasMixes : List Gas) :
    nextSwitchGas (setNdlType m t).config d g gasMixes =
      nextSwitchGas m.config d g gasMixes := rfl

theorem nextDecoAction_ndl (m : BuhlmannModel) (t : NDLType) (gasMixes : List Gas) :
    nextDecoAction (setNdlType m t) gasMixes = nextDecoAction m gasMixes := rfl

theorem calcMaxSlopedGFCore_ndl (f : BuhlmannModel → Option ℝ) (t : NDLType)
    (hc : ∀ mm, f (setNdlType mm t) = f mm) (m : BuhlmannModel) (d : ℝ) :
    calcMaxSlopedGFCore f (setNdlType m t) d =
      (calcMaxSlopedGFCore f m d).map (fun p => (p.1, setNdlType p.2 t)) := by
  rw [calcMaxSlopedGFCore, calcMaxSlopedGFCore, hc m]
  cases f m with
  | none => rfl
  | some c =>
    dsimp only
    by_cases h0 : ¬ 0 < c
    · rw [if_pos h0, if_pos h0]
      rfl
    · rw [if_neg h0, if_neg h0]
      simp only [setNdl_state]
      cases m.state.gfLowDepth with
      | some D =>
        dsimp only
        by_cases hD : D < d
        · rw [if_pos hD, if_pos hD]
          rfl
        · rw [if_neg hD, if_neg hD]
          rfl
      | none =>
        dsimp only
        simp only [computeGfLowDepth_ndl, setNdl_state, setNdl_update_state]
        by_cases hD : computeGfLowDepth m < d
        · rw [if_pos hD, if_pos hD]
          rfl
        · rw [if_neg hD, if_neg hD]
          rfl

theorem match_body_map (t : NDLType) (E : Option (ℝ × BuhlmannModel))
    (B : ℝ → BuhlmannModel → BuhlmannModel)
    (hB : ∀ gf mm, B gf (setNdlType mm t) = setNdlType (B gf mm) t) :
    (match E.map (fun p => (p.1, setNdlType p.2 t)) with
     | none => none
     | some (maxGf, m2) => some (B maxGf m2)) =
    ((match E with
      | none => none
      | some (maxGf, m2) => some (B maxGf m2)) : Option BuhlmannModel).map
        (fun mm => setNdlType mm t) := by
  cases E with
  | none => rfl
  | some p =>
    obtain ⟨gf, m2⟩ := p
    dsimp only [Option.map]
    rw [hB]

theorem recalcCompartmentsCore_ndl (f : BuhlmannModel → Option ℝ) (t : NDLType)
    (hc : ∀ mm, f (setNdlType mm t) = f mm) (m : BuhlmannModel) (d ts : ℝ) (g : Gas) :
    recalculateCompartmentsCore f (setNdlType m t) d ts g =
      (recalculateCompartmentsCore f m d ts g).map (fun mm => setNdlType mm t) := by
  rw [recalculateCompartmentsCore, recalculateCompartmentsCore]
  simp only [setNdl_compartments, setNdl_gfHigh, setNdl_gfLow, setNdl_surfacePressure,
    setNdl_update_comps]
  by_cases hg : m.config.gfHigh ≠ m.config.gfLow
  · rw [if_pos hg, if_pos hg, calcMaxSlopedGFCore_ndl f t hc]
    exact match_body_map t _ _ (fun gf mm => rfl)
  · rw [if_neg hg, if_neg hg]
    rfl

theorem recalculateCore_ndl (f : BuhlmannModel → Option ℝ) (t : NDLType)
    (hc : ∀ mm, f (setNdlType mm t) = f mm) (m : BuhlmannModel) (d ts : ℝ) (g : Gas) :
    recalculateCore f (setNdlType m t) d ts g =
      (recalculateCore f m d ts g).map (fun mm => setNdlType mm t) := by
  rw [recalculateCore, recalculateCore, recalcCompartmentsCore_ndl f t hc]
  cases recalculateCompartmentsCore f m d ts g with
  | none => rfl
  | some m1 =>
    dsimp only [Option.map]
    by_cases hs : m1.sim = true
    · rw [if_pos (show (setNdlType m1 t).sim = true from hs), if_pos hs]
    · rw [if_neg (show ¬ (setNdlType m1 t).sim = true from hs), if_neg hs]
      rfl

theorem recordCore_ndl (f : BuhlmannModel → Option ℝ) (t : NDLType)
    (hc : ∀ mm, f (setNdlType mm t) = f mm) (m : BuhlmannModel) (d ts : ℝ) (g : Gas) :
    recordCore f (setNdlType m t) d ts g =
      (recordCore f m d ts g).map (fun mm => setNdlType mm t) := by
  rw [recordCore, recordCore]
  by_cases hv : d < 0 ∨ 200 < d
  · rw [if_pos hv, if_pos hv]
    rfl
  · rw [if_neg hv, if_neg hv]
    exact recalculateCore_ndl f t hc
      { m with state := { m.state with depth := d, gas := g, time := m.state.time + ts } }
      d ts g

theorem travelLoopCore_ndl (f : BuhlmannModel → Option ℝ) (t : NDLType)
    (hc : ∀ mm, f (setNdlType mm t) = f mm) (g : Gas) (dr : ℝ) :
    ∀ (n : ℕ) (cur : ℝ) (m : BuhlmannModel),
      travelLoopCore f g dr n cur (setNdlType m t) =
        (travelLoopCore f g dr n cur m).map (fun mm => setNdlType mm t) := by
  intro n
  induction n with
  | zero =>
    intro cur m
    rfl
  | succ k ih =>
    intro cur m
    rw [travelLoopCore, travelLoopCore]
    dsimp only
    simp only [setNdl_state, setNdl_update_state]
    rw [recalculateCore_ndl f t hc]
    cases recalculateCore f { m with state := { m.state with time := m.state.time + 1 } }
        (cur + dr) 1 g with
    | none => rfl
    | some m2 =>
      dsimp only [Option.map]
      exact ih (cur + dr) m2

theorem recordTravelCore_ndl (f : BuhlmannModel → Option ℝ) (t : NDLType)
    (hc : ∀ mm, f (setNdlType mm t) = f mm) (m : BuhlmannModel) (targetDepth ts : ℝ)
    (g : Gas) :
    recordTravelCore f (setNdlType m t) targetDepth ts g =
      (recordTravelCore f m targetDepth ts g).map (fun mm => setNdlType mm t) := by
  rw [recordTravelCore, recordTravelCore]
  by_cases hv : targetDepth < 0 ∨ 200 < targetDepth
  · rw [if_pos hv, if_pos hv]
    rfl
  · rw [if_neg hv, if_neg hv]
    dsimp only
    simp only [setNdl_state, setNdl_update_state]
    rw [travelLoopCore_ndl f t hc]
    cases travelLoopCore f g ((targetDepth - m.state.depth) / ts) (numSteps ts)
        { m with state := { m.state with gas := g } }.state.depth
        { m with state := { m.state with gas := g } } with
    | none => rfl
    | some m2 => rfl

theorem recordTravelWithRateCore_ndl (f : BuhlmannModel → Option ℝ) (t : NDLType)
    (hc : ∀ mm, f (setNdlType mm t) = f mm) (m : BuhlmannModel) (targetDepth rate : ℝ)
    (g : Gas) :
    recordTravelWithRateCore f (setNdlType m t) targetDepth rate g =
      (recordTravelWithRateCore f m targetDepth rate g).map (fun mm => setNdlType mm t) :=
  recordTravelCore_ndl f t hc m targetDepth
    (60 * (|targetDepth - m.state.depth| / rate)) g

theorem adaptiveLoop_ndl (t : NDLType) :
    ∀ (n iters : ℕ) (m : BuhlmannModel) (c : ℝ) (g : Gas), n = 51 - iters →
      adaptiveLoop (setNdlType m t) c g iters = adaptiveLoop m c g iters := by
  intro n
  induction n with
  | zero =>
    intro iters m c g hn
    rw [adaptiveLoop, adaptiveLoop]
    simp only [setNdl_state, setNdl_decoAscentRate]
    by_cases hb : m.state.depth ≤ 0 ∨ m.state.depth ≤ c
    · rw [if_pos hb, if_pos hb]
    · rw [if_neg hb, if_neg hb]
      rw [show recordTravelWithRateS (setNdlType m t) c m.config.decoAscentRate g =
          (recordTravelWithRateS m c m.config.decoAscentRate g).map
            (fun mm => setNdlType mm t) from
        recordTravelWithRateCore_ndl ceilingSimFn t (fun mm => rfl) m c
          m.config.decoAscentRate g]
      cases recordTravelWithRateS m c m.config.decoAscentRate g with
      | none => rfl
      | some m2 =>
        dsimp only [Option.map]
        have hcap : 50 < iters + 1 := by omega
        rw [dif_pos hcap, dif_pos hcap, ceilingSimMode_ndl]
  | succ k ih =>
    intro iters m c g hn
    rw [adaptiveLoop, adaptiveLoop]
    simp only [setNdl_state, setNdl_decoAscentRate]
    by_cases hb : m.state.depth ≤ 0 ∨ m.state.depth ≤ c
    · rw [if_pos hb, if_pos hb]
    · rw [if_neg hb, if_neg hb]
      rw [show recordTravelWithRateS (setNdlType m t) c m.config.decoAscentRate g =
          (recordTravelWithRateS m c m.config.decoAscentRate g).map
            (fun mm => setNdlType mm t) from
        recordTravelWithRateCore_ndl ceilingSimFn t (fun mm => rfl) m c
          m.config.decoAscentRate g]
      cases recordTravelWithRateS m c m.config.decoAscentRate g with
      | none => rfl
      | some m2 =>
        dsimp only [Option.map]
        rw [ceilingSimMode_ndl]
        by_cases hcap : 50 < iters + 1
        · rw [dif_pos hcap, dif_pos hcap]
        · rw [dif_neg hcap, dif_neg hcap]
          exact ih (iters + 1) m2 (ceilingSimMode m2) g (by omega)

theorem adaptiveCeilingCalc_ndl (m : BuhlmannModel) (t : NDLType) :
    adaptiveCeilingCalc (setNdlType m t) = adaptiveCeilingCalc m := by
  rw [adaptiveCeilingCalc, adaptiveCeilingCalc]
  rw [show fork (setNdlType m t) = setNdlType (fork m) t from rfl, ceilingSimMode_ndl,
    setNdl_state, adaptiveLoop_ndl t (51 - 0) 0 (fork m) (ceilingSimMode (fork m))
      (fork m).state.gas rfl]

theorem ceiling_ndl (m : BuhlmannModel) (t : NDLType) :
    ceiling (setNdlType m t) = ceiling m := by
  rw [ceiling, ceiling]
  simp only [setNdl_sim, setNdl_ceilingType, setNdl_roundCeiling, leadingComp_ndl,
    setNdl_surfacePressure]
  by_cases hs : m.sim = true
  · rw [if_pos hs]
  · rw [if_neg hs]
    cases m.config.ceilingType with
    | Actual => rfl
    | Adaptive => rw [adaptiveCeilingCalc_ndl]

theorem record_ndl (m : BuhlmannModel) (t : NDLType) (d ts : ℝ) (g : Gas) :
    record (setNdlType m t) d ts g = (record m d ts g).map (fun mm => setNdlType mm t) := by
  rw [record, record]
  exact recordCore_ndl ceiling t (fun mm => ceiling_ndl mm t) m d ts g

theorem recordTravelWithRate_ndl (m : BuhlmannModel) (t : NDLType)
    (targetDepth rate : ℝ) (g : Gas) :
    recordTravelWithRate (setNdlType m t) targetDepth rate g =
      (recordTravelWithRate m targetDepth rate g).map (fun mm => setNdlType mm t) := by
  rw [recordTravelWithRate, recordTravelWithRate]
  exact recordTravelWithRateCore_ndl ceiling t (fun mm => ceiling_ndl mm t) m
    targetDepth rate g

theorem decoLoop_ndl (t : NDLType) (gasMixes : List Gas) :
    ∀ (fuel : ℕ) (simM : BuhlmannModel) (stages : List DecoStage),
      decoLoop fuel (setNdlType simM t) gasMixes stages =
        decoLoop fuel simM gasMixes stages := by
  intro fuel
  induction fuel with
  | zero =>
    intro simM stages
    conv_lhs => rw [decoLoop]
    conv_rhs => rw [decoLoop]
    rw [if_pos rfl, if_pos rfl]
  | succ f ih =>
    intro simM stages
    conv_lhs => rw [decoLoop]
    conv_rhs => rw [decoLoop]
    rw [if_neg (Nat.succ_ne_zero f), if_neg (Nat.succ_ne_zero f)]
    dsimp only
    simp only [setNdl_state, setNdl_decoAscentRate, nextDecoAction_ndl, ceilingSimMode_ndl]
    cases (nextDecoAction simM gasMixes).1 with
    | none => rfl
    | some act =>
      cases act with
      | Ascent =>
        rw [recordTravelWithRate_ndl]
        cases recordTravelWithRate simM (decoStopDepth (ceilingSimMode simM))
            simM.config.decoAscentRate simM.state.gas with
        | none => rfl
        | some m2 =>
          dsimp only [Option.map]
          simp only [setNdl_state]
          exact ih m2 _
      | DecoStop =>
        rw [record_ndl]
        cases record simM simM.state.depth 1 simM.state.gas with
        | none => rfl
        | some m2 =>
          dsimp only [Option.map]
          simp only [setNdl_state]
          exact ih m2 _
      | GasSwitch =>
        cases (nextDecoAction simM gasMixes).2 with
        | none => exact ih simM stages
        | some nextGas =>
          dsimp only
          by_cases hmod : Gas.maxOperatingDepth nextGas 1.6 < simM.state.depth
          · rw [if_pos hmod, if_pos hmod, recordTravelWithRate_ndl]
            cases recordTravelWithRate simM (Gas.maxOperatingDepth nextGas 1.6)
                simM.config.decoAscentRate simM.state.gas with
            | none => rfl
            | some mA =>
              dsimp only [Option.map]
              simp only [setNdl_state]
              rw [record_ndl]
              cases record mA mA.state.depth 0 nextGas with
              | none => rfl
              | some mS =>
                dsimp only [Option.map]
                simp only [setNdl_state]
                exact ih mS _
          · rw [if_neg hmod, if_neg hmod]
            dsimp only
            simp only [setNdl_state]
            rw [record_ndl]
            cases record simM simM.state.depth 0 nextGas with
            | none => rfl
            | some mS =>
              dsimp only [Option.map]
              simp only [setNdl_state]
              exact ih mS _

theorem deco_ndl (m : BuhlmannModel) (t : NDLType) (gasMixes : List Gas) :
    deco (setNdlType m t) gasMixes = deco m gasMixes := by
  rw [deco, deco]
  dsimp only
  rw [clone_ndl]
  simp only [setNdl_state]
  by_cases h1 : gasMixes = []
  · rw [if_pos h1, if_pos h1]
  · rw [if_neg h1, if_neg h1]
    by_cases h2 : m.clone.state.gas ∉ gasMixes
    · rw [if_pos h2, if_pos h2]
    · rw [if_neg h2, if_neg h2, decoLoop_ndl]

theorem inDeco_ndl (m : BuhlmannModel) (t : NDLType) :
    inDeco (setNdlType m t) = inDeco m := by
  rw [inDeco, inDeco]
  simp only [setNdl_ceilingType, setNdl_state]
  cases m.config.ceilingType with
  | Actual => rw [ceiling_ndl]
  | Adaptive => rw [deco_ndl]

theorem ndlLoop_ndl (t : NDLType) (d : ℝ) (g : Gas) :
    ∀ (n i : ℕ) (m : BuhlmannModel), n = NDL_CUT_OFF_MINS - i →
      ndlLoop d g (setNdlType m t) i = ndlLoop d g m i := by
  intro n
  induction n with
  | zero =>
    intro i m hn
    have hi : ¬ i < NDL_CUT_OFF_MINS := by
      simp only [NDL_CUT_OFF_MINS] at hn ⊢
      omega
    rw [ndlLoop, dif_neg hi, ndlLoop, dif_neg hi]
  | succ k ih =>
    intro i m hn
    have hi : i < NDL_CUT_OFF_MINS := by
      simp only [NDL_CUT_OFF_MINS] at hn ⊢
      omega
    rw [ndlLoop, dif_pos hi, ndlLoop, dif_pos hi, record_ndl]
    cases record m d 60 g with
    | none => rfl
    | some m2 =>
      dsimp only [Option.map]
      rw [inDeco_ndl]
      cases inDeco m2 with
      | none => rfl
      | some b =>
        cases b
        · exact ih (i + 1) m2 (by simp only [NDL_CUT_OFF_MINS] at hn ⊢; omega)
        · rfl

theorem ndl_ndl (m : BuhlmannModel) (t : NDLType) :
    ndl (setNdlType m t) = ndl m := by
  rw [ndl, ndl, inDeco_ndl]
  cases inDeco m with
  | none => rfl
  | some b =>
    cases b
    · dsimp only
      simp only [setNdl_state]
      rw [show fork (setNdlType m t) = setNdlType (fork m) t from rfl]
      exact ndlLoop_ndl t m.state.depth m.state.gas NDL_CUT_OFF_MINS 0 (fork m) rfl
    · rfl

/-- Claim C10.  The configured ndl_type has no influence on any result:
substituting the ndlType field commutes with model construction and with
record, and leaves ndl() (as well as ceiling, deco and inDeco, used on
the way) unchanged — the field is stored but never read by the NDL
computation. -/
theorem make_ndl (cfg : BuhlmannConfig) (t : NDLType) :
    BuhlmannModel.make { cfg with ndlType := t } =
      setNdlType (BuhlmannModel.make cfg) t := by
  have hcomps : createCompartments { cfg with ndlType := t } = createCompartments cfg := by
    rw [createCompartments, createCompartments]
    congr 1
  rw [BuhlmannModel.make, BuhlmannModel.make, setNdlType, hcomps]

theorem ndl_independent_of_ndlType :
    (∀ (m : BuhlmannModel) (t : NDLType), ndl (setNdlType m t) = ndl m) ∧
    (∀ (m : BuhlmannModel) (t : NDLType) (d ts : ℝ) (g : Gas),
       record (setNdlType m t) d ts g =
         (record m d ts g).map (fun mm => setNdlType mm t)) ∧
    (∀ (cfg : BuhlmannConfig) (t : NDLType),
       BuhlmannModel.make { cfg with ndlType := t } =
         setNdlType (BuhlmannModel.make cfg) t) :=
  ⟨fun m t => ndl_ndl m t, fun m t d ts g => record_ndl m t d ts g,
    fun cfg t => make_ndl cfg t⟩

/-- Claim C6.  The queries ceiling, ndl, deco and inDeco never assign to
their receiver: the explicitly threaded receiver they return is the
input model, so the dive state (depth, time, gas, gfLowDepth, oxTox) and
all compartments are unchanged; the internal simulations run on a
fork/clone, which copies the dive state and compartments and differs
from the caller only in the sim flag. -/
theorem queries_pure (m : BuhlmannModel) (gasMixes : List Gas) :
    (ceilingQuery m).2 = m ∧ (ndlQuery m).2 = m ∧
    (decoQuery m gasMixes).2 = m ∧ (inDecoQuery m).2 = m ∧
    (fork m).state = m.state ∧ (fork m).compartments = m.compartments ∧
    (m.clone).state = m.state ∧ (m.clone).compartments = m.compartments ∧
    fork m = { m with sim := true } ∧ m.clone = { m with sim := true } :=
  ⟨rfl, rfl, rfl, rfl, rfl, rfl, rfl, rfl, rfl, rfl⟩

end

